import Mathlib

/-!
# Verification of the Amach-Website VideoGenerator generation clients

Shallow embedding of the HTTP generation clients in
`src/VideoGenerator/generate_graeber_video.py` (namespace `Graeber`),
`src/VideoGenerator/generate_sections.py` (namespace `Sections`),
`src/VideoGenerator/generate_graeber_video_full.py` (namespace `Full`) and
`src/VideoGenerator/generate_single_image.py` (namespace `SingleImage`).

The network is modelled by an `Oracle`: a function from the sequence number of
the network call and the request to the response.  Each embedded client
returns its result together with the trace of observable events it performed
(POSTs, GETs, sleeps, file writes), so that claims about which backends are
contacted, in which order, and with which payloads become statements about
the trace.
-/

/-- Raw binary payloads are byte lists; each entry is meant to be `< 256`. -/
abbrev Bytes := List Nat

/-- A JSON value as far as the clients inspect one: a string, an array, or
anything else (`jother` stands for numbers, booleans, null and objects, none
of which any client ever successfully consumes). -/
inductive JVal where
  | jstr (s : String)
  | jlist (xs : List JVal)
  | jother
deriving Repr

/-- The response body of a generation POST, restricted to the four keys the
clients ever look up (`images`, `video`, `url`, `videos`).  The `images`
field, when present, is modelled as the array of base64 strings the service
documents; the other three keys may hold arbitrary JSON values. -/
structure RespBody where
  images : Option (List String)
  video : Option JVal
  url : Option JVal
  videos : Option JVal
deriving Repr

/-- A response body with none of the recognised keys. -/
def emptyBody : RespBody := ⟨none, none, none, none⟩

/-- The JSON payload of a generation POST request, with one optional field per
key that any of the clients ever sets. -/
structure PostReq where
  endpoint : String
  model : String
  prompt : String
  width : Option Nat
  height : Option Nat
  duration : Option Nat
  returnBinary : Option Bool
  hideWatermark : Option Bool
deriving DecidableEq, Repr

/-- Outcome of a POST as the Python code observes it: a 2xx response with a
parsed JSON body, an HTTP error status (what `raise_for_status` raises on),
or a transport-level failure.  `netError` also covers a body that fails to
parse as JSON, since every client treats the two identically. -/
inductive PostResult where
  | ok (body : RespBody)
  | httpError (status : Nat)
  | netError
deriving Repr

/-- Outcome of a GET: the clients read `.content` without checking the status,
so the only distinction is delivered bytes versus a raised transport error. -/
inductive GetResult where
  | ok (content : Bytes)
  | netError
deriving DecidableEq, Repr

/-- The network, as a function of the sequence number of the call (POSTs and
GETs share one counter) and the request. -/
structure Oracle where
  post : Nat → PostReq → PostResult
  get : Nat → String → GetResult

/-- Observable events of one client call. -/
inductive Event where
  | post (req : PostReq)
  | get (url : String)
  | sleep (seconds : Nat)
  | write (path : String) (data : Bytes)
deriving DecidableEq, Repr

/-- Errors a client call can raise, mirroring the Python exceptions:
`httpStatus` for `requests.exceptions.HTTPError`, `netError` for transport
errors, `decodeError` for `binascii` failures on bad base64, and `appError`
for explicitly raised `Exception(msg)` (and type errors). -/
inductive GenError where
  | httpStatus (status : Nat)
  | netError
  | decodeError
  | appError (msg : String)
deriving DecidableEq, Repr

/-- Decidable equality for `Except`, so that concrete client results can be
compared by `decide`. -/
instance exceptDecEq {ε α : Type} [DecidableEq ε] [DecidableEq α] :
    DecidableEq (Except ε α) := fun a b =>
  match a, b with
  | .ok x, .ok y =>
      if h : x = y then .isTrue (by rw [h])
      else .isFalse fun hh => h (Except.ok.inj hh)
  | .error x, .error y =>
      if h : x = y then .isTrue (by rw [h])
      else .isFalse fun hh => h (Except.error.inj hh)
  | .ok _, .error _ => .isFalse fun hh => Except.noConfusion hh
  | .error _, .ok _ => .isFalse fun hh => Except.noConfusion hh

/-- Whether an event is a network call (POST or GET); these consume sequence
numbers of the `Oracle`. -/
def Event.isCall : Event → Bool
  | .post _ => true
  | .get _ => true
  | _ => false

/-- Number of network calls in a trace. -/
def calls (evs : List Event) : Nat := (evs.filter Event.isCall).length

/-- The POST requests occurring in a trace, in order. -/
def postsOf (evs : List Event) : List PostReq :=
  evs.filterMap fun e => match e with | .post r => some r | _ => none

/-- The POST requests to a given endpoint occurring in a trace, in order. -/
def postsTo (endpoint : String) (evs : List Event) : List PostReq :=
  (postsOf evs).filter fun r => r.endpoint == endpoint

/-- The models of the POSTs of a trace, in order. -/
def postedModels (evs : List Event) : List String :=
  (postsOf evs).map PostReq.model

/-- The GET urls of a trace, in order. -/
def getsOf (evs : List Event) : List String :=
  evs.filterMap fun e => match e with | .get u => some u | _ => none

/-- The file writes of a trace. -/
def writesOf (evs : List Event) : List (String × Bytes) :=
  evs.filterMap fun e => match e with | .write p d => some (p, d) | _ => none

/-- The API base url, `VENICE_API_BASE` in every script. -/
def VENICE_API_BASE : String := "https://api.venice.ai/api/v1"

/-- The image generation endpoint. -/
def imageEndpoint : String := VENICE_API_BASE ++ "/image/generate"

/-- The video generation endpoint. -/
def videoEndpoint : String := VENICE_API_BASE ++ "/video/generate"

/-! ## Base64, as used via `base64.b64encode` / `base64.b64decode` -/

/-- The standard base64 alphabet. -/
def b64Alphabet : List Char :=
  ['A','B','C','D','E','F','G','H','I','J','K','L','M','N','O','P','Q','R',
   'S','T','U','V','W','X','Y','Z','a','b','c','d','e','f','g','h','i','j',
   'k','l','m','n','o','p','q','r','s','t','u','v','w','x','y','z','0','1',
   '2','3','4','5','6','7','8','9','+','/']

/-- The alphabet character of a sextet. -/
def sextetChar (n : Nat) : Char := b64Alphabet.getD n 'A'

/-- The sextet of an alphabet character, if it is one. -/
def charSextet (c : Char) : Option Nat :=
  let i := b64Alphabet.indexOf c
  if i < 64 then some i else none

/-- Whether a character belongs to the base64 alphabet. -/
def isB64Char (c : Char) : Bool := b64Alphabet.contains c

/-- Standard base64 encoding of a byte list, as a character list: three bytes
become four alphabet characters, a final one or two bytes are padded with
`'='`. -/
def b64encodeAux : List Nat → List Char
  | [] => []
  | [a] => [sextetChar (a / 4), sextetChar (a % 4 * 16), '=', '=']
  | [a, b] => [sextetChar (a / 4), sextetChar (a % 4 * 16 + b / 16),
               sextetChar (b % 16 * 4), '=']
  | a :: b :: c :: rest =>
      sextetChar (a / 4) :: sextetChar (a % 4 * 16 + b / 16) ::
      sextetChar (b % 16 * 4 + c / 64) :: sextetChar (c % 64) :: b64encodeAux rest

/-- `base64.b64encode` of a byte list, as a string. -/
def b64encode (bs : Bytes) : String := String.mk (b64encodeAux bs)

/-- Rebuild one decoded chunk of two sextets (one byte). -/
def quadBytes1 (c1 c2 : Char) : Option Bytes :=
  match charSextet c1, charSextet c2 with
  | some w, some x => some [w * 4 + x / 16]
  | _, _ => none

/-- Rebuild one decoded chunk of three sextets (two bytes). -/
def quadBytes2 (c1 c2 c3 : Char) : Option Bytes :=
  match charSextet c1, charSextet c2, charSextet c3 with
  | some w, some x, some y => some [w * 4 + x / 16, x % 16 * 16 + y / 4]
  | _, _, _ => none

/-- Rebuild one decoded chunk of four sextets (three bytes). -/
def quadBytes3 (c1 c2 c3 c4 : Char) : Option Bytes :=
  match charSextet c1, charSextet c2, charSextet c3, charSextet c4 with
  | some w, some x, some y, some z =>
      some [w * 4 + x / 16, x % 16 * 16 + y / 4, y % 4 * 64 + z]
  | _, _, _, _ => none

/-- Decode a filtered base64 character stream four characters at a time; the
final quadruple may end in one or two padding characters.  A stream whose
length is not a multiple of four, or with padding anywhere but at the very
end, is rejected (Python raises `binascii.Error` there). -/
def b64decodeChars : List Char → Option Bytes
  | [] => some []
  | c1 :: c2 :: c3 :: c4 :: rest =>
      if rest = [] ∧ c4 = '=' then
        if c3 = '=' then quadBytes1 c1 c2 else quadBytes2 c1 c2 c3
      else
        match quadBytes3 c1 c2 c3 c4, b64decodeChars rest with
        | some bs, some tail => some (bs ++ tail)
        | _, _ => none
  | _ => none

/-- `base64.b64decode` (with its default `validate=False`): characters outside
the alphabet and `'='` are discarded, then the rest must be quadruples with
padding only at the end.  (CPython's decoder additionally tolerates a few
exotic inputs with padding mid-stream; the clients never receive such input
from any theorem below.) -/
def b64decode (s : String) : Option Bytes :=
  b64decodeChars (s.data.filter fun c => isB64Char c || c == '=')

/-- Python's `str.startswith(pre)`, as a prefix test on the character lists
(Lean's byte-position `String.startsWith` is equivalent but does not reduce
well in the kernel). -/
def strStartsWith (s pre : String) : Bool := pre.data.isPrefixOf s.data

/-! ## The main client: `generate_graeber_video.py`, class `VeniceAPIClient` -/

namespace Graeber

/-- The image trial list of `VeniceAPIClient.generate_image`: five hardcoded
identifiers, then the caller-supplied `model` parameter last.  The Python
default for `model` is `"nano-banana-pro"`. -/
def modelsToTry (model : String) : List String :=
  ["nano-banana-pro", "hidream", "venice-sd35", "qwen-image", "z-image-turbo",
   model]

/-- The image request payload: fixed 1280x720 (the comment in the source calls
1280 the maximum width of the service). -/
def imagePayload (prompt model : String) : PostReq :=
  { endpoint := imageEndpoint, model := model, prompt := prompt,
    width := some 1280, height := some 720, duration := none,
    returnBinary := some false, hideWatermark := none }

/-- The `images` entry the client consumes: present iff the `images` key is
present and the array nonempty, in which case it is the first entry
(`data["images"][0]`). -/
def imagesOf (b : RespBody) : Option String :=
  match b.images with
  | some (x :: _) => some x
  | _ => none

/-- Outcome of a 2xx image response: decode `images[0]`, or raise
`Exception("No image data returned")` when the key is missing or empty. -/
def imageOkOutcome (body : RespBody) : Sum GenError Bytes :=
  match imagesOf body with
  | some s =>
      match b64decode s with
      | some bs => .inr bs
      | none => .inl .decodeError
  | none => .inl (.appError "No image data returned")

/-- Outcome of the single rate-limit retry: on a 2xx response with a decodable
`images[0]` the retry succeeds; every other outcome is swallowed by the bare
`except` and the recorded error stays the original 429 `HTTPError`. -/
def retryOutcome (r : PostResult) : Sum GenError Bytes :=
  match r with
  | .ok body =>
      match imagesOf body with
      | some s =>
          match b64decode s with
          | some bs => .inr bs
          | none => .inl (.httpStatus 429)
      | none => .inl (.httpStatus 429)
  | _ => .inl (.httpStatus 429)

/-- One iteration of the image trial loop for model `m`, at network-call
sequence number `k`: the events it emits and either the returned bytes or the
error it records in `last_error` before continuing.  A 429 sleeps 15 seconds
and retries the same payload exactly once; every other failure moves on after
a single POST. -/
def tryImageModel (o : Oracle) (k : Nat) (p m : String) :
    List Event × Sum GenError Bytes :=
  let req := imagePayload p m
  match o.post k req with
  | .ok body => ([.post req], imageOkOutcome body)
  | .netError => ([.post req], .inl .netError)
  | .httpError s =>
      if s = 404 then ([.post req], .inl (.httpStatus 404))
      else if s = 429 then
        ([.post req, .sleep 15, .post req], retryOutcome (o.post (k + 1) req))
      else ([.post req], .inl (.httpStatus s))

/-- The image trial loop: first success wins; when the list is exhausted the
recorded `last_error` is raised, or `Exception("All image models failed")`
when no trial ever recorded one. -/
def imageLoop (o : Oracle) (p : String) :
    Nat → List String → Option GenError → Except GenError Bytes × List Event
  | _, [], none => (.error (.appError "All image models failed"), [])
  | _, [], some e => (.error e, [])
  | k, m :: rest, _ =>
      match tryImageModel o k p m with
      | (evs, .inr bs) => (.ok bs, evs)
      | (evs, .inl e) =>
          let r := imageLoop o p (k + calls evs) rest (some e)
          (r.1, evs ++ r.2)

/-- `VeniceAPIClient.generate_image(prompt, model)`, at starting network-call
sequence number `k`.  The Python default for `model` is `"nano-banana-pro"`. -/
def generate_image (o : Oracle) (k : Nat) (prompt model : String) :
    Except GenError Bytes × List Event :=
  imageLoop o prompt k (modelsToTry model) none

/-- The video trial list of `VeniceAPIClient.generate_video`, each with its
`supports_duration` flag. -/
def videoModelsToTry : List (String × Bool) :=
  [("sora-2-pro-text-to-video", true),
   ("veo3.1-full-text-to-video", true),
   ("kling-2.6-pro-text-to-video", true),
   ("wan-2.6-text-to-video", true),
   ("ltx-2-full-text-to-video", true)]

/-- The video request payload: model, prompt, and the duration when the
model's flag says it supports one. -/
def videoPayload (prompt model : String) (duration : Nat)
    (supportsDuration : Bool) : PostReq :=
  { endpoint := videoEndpoint, model := model, prompt := prompt,
    width := none, height := none,
    duration := if supportsDuration then some duration else none,
    returnBinary := none, hideWatermark := none }

/-- Consume a 2xx video response body, mirroring the `if "video" ... elif
"url" ... elif "videos" ... else raise` chain.  Returns the GET events issued
(at sequence number `k`) and `some (.inr bytes)` on a return, `some (.inl e)`
on a raised-and-caught error, or `none` when control silently falls off the
chain without a return or a raise (a `video` or `videos[0]` value that is not
a string). -/
def videoBodyScan (o : Oracle) (k : Nat) (body : RespBody) :
    List Event × Option (Sum GenError Bytes) :=
  match body.video with
  | some (.jstr s) =>
      if strStartsWith s "http" then
        match o.get k s with
        | .ok c => ([.get s], some (.inr c))
        | .netError => ([.get s], some (.inl .netError))
      else
        match b64decode s with
        | some bs => ([], some (.inr bs))
        | none => ([], some (.inl .decodeError))
  | some _ => ([], none)
  | none =>
      match body.url with
      | some (.jstr s) =>
          match o.get k s with
          | .ok c => ([.get s], some (.inr c))
          | .netError => ([.get s], some (.inl .netError))
      | some _ => ([], some (.inl (.appError "invalid url")))
      | none =>
          match body.videos with
          | some (.jlist ((.jstr s) :: _)) =>
              if strStartsWith s "http" then
                match o.get k s with
                | .ok c => ([.get s], some (.inr c))
                | .netError => ([.get s], some (.inl .netError))
              else
                match b64decode s with
                | some bs => ([], some (.inr bs))
                | none => ([], some (.inl .decodeError))
          | some (.jlist (_ :: _)) => ([], none)
          | some (.jlist []) =>
              ([], some (.inl (.appError "No video data in response")))
          | some (.jstr s) =>
              match s.data with
              | [] => ([], some (.inl (.appError "No video data in response")))
              | c :: _ =>
                  match b64decode (String.mk [c]) with
                  | some bs => ([], some (.inr bs))
                  | none => ([], some (.inl .decodeError))
          | some .jother => ([], some (.inl (.appError "TypeError")))
          | none => ([], some (.inl (.appError "No video data in response")))

/-- One iteration of the video trial loop.  Unlike the image path, a 429 here
sleeps 15 seconds and then moves straight on to the *next* identifier — the
`continue` after the sleep retries nothing. -/
def tryVideoModel (o : Oracle) (k : Nat) (p : String) (d : Nat)
    (me : String × Bool) : List Event × Option (Sum GenError Bytes) :=
  let req := videoPayload p me.1 d me.2
  match o.post k req with
  | .ok body =>
      let r := videoBodyScan o (k + 1) body
      (.post req :: r.1, r.2)
  | .netError => ([.post req], some (.inl .netError))
  | .httpError s =>
      if s = 404 then ([.post req], some (.inl (.httpStatus 404)))
      else if s = 429 then ([.post req, .sleep 15], some (.inl (.httpStatus 429)))
      else ([.post req], some (.inl (.httpStatus s)))

/-- The video trial loop: returns the successful bytes if any trial returned,
the final recorded `last_error`, and the trace.  A trial that silently fell
through leaves `last_error` unchanged. -/
def videoLoop (o : Oracle) (p : String) (d : Nat) :
    Nat → List (String × Bool) → Option GenError →
    Option Bytes × Option GenError × List Event
  | _, [], le => (none, le, [])
  | k, me :: rest, le =>
      match tryVideoModel o k p d me with
      | (evs, some (.inr bs)) => (some bs, le, evs)
      | (evs, some (.inl e)) =>
          let r := videoLoop o p d (k + calls evs) rest (some e)
          (r.1, r.2.1, evs ++ r.2.2)
      | (evs, none) =>
          let r := videoLoop o p d (k + calls evs) rest le
          (r.1, r.2.1, evs ++ r.2.2)

/-- `VeniceAPIClient.generate_video(prompt, duration)` (Python default
`duration=5`): try every video model, and if none returned, fall back to one
`generate_image(prompt)` call (with its default model). -/
def generate_video (o : Oracle) (k : Nat) (prompt : String) (duration : Nat) :
    Except GenError Bytes × List Event :=
  match videoLoop o prompt duration k videoModelsToTry none with
  | (some bs, _, evs) => (.ok bs, evs)
  | (none, _, evs) =>
      let r := generate_image o (k + calls evs) prompt "nano-banana-pro"
      (r.1, evs ++ r.2)

end Graeber

/-! ## The sections client: `generate_sections.py`, class `VeniceClient` -/

namespace Sections

/-- The image trial list of `VeniceClient.generate_image`. -/
def imageModels : List String :=
  ["nano-banana-pro", "hidream", "venice-sd35", "qwen-image"]

/-- The video trial list of `VeniceClient.generate_video`. -/
def videoModels : List String :=
  ["sora-2-pro-text-to-video", "veo3.1-full-text-to-video",
   "kling-2.6-pro-text-to-video", "wan-2.6-text-to-video"]

/-- The image request payload of the sections client (1280x720). -/
def imagePayload (prompt model : String) : PostReq :=
  { endpoint := imageEndpoint, model := model, prompt := prompt,
    width := some 1280, height := some 720, duration := none,
    returnBinary := some false, hideWatermark := none }

/-- The video request payload of the sections client (model, prompt,
duration only). -/
def videoPayload (prompt model : String) (duration : Nat) : PostReq :=
  { endpoint := videoEndpoint, model := model, prompt := prompt,
    width := none, height := none, duration := some duration,
    returnBinary := none, hideWatermark := none }

/-- One iteration of the sections image loop: a 429 sleeps 15 seconds and
moves to the next model (no retry of the same one); any error, missing
`images` key or undecodable payload also just moves on.  The client records
no errors, so a trial's outcome is only `some bytes` or `none`. -/
def tryImageModel (o : Oracle) (k : Nat) (p m : String) :
    List Event × Option Bytes :=
  let req := imagePayload p m
  match o.post k req with
  | .ok body =>
      match Graeber.imagesOf body with
      | some s => ([.post req], b64decode s)
      | none => ([.post req], none)
  | .netError => ([.post req], none)
  | .httpError s =>
      if s = 429 then ([.post req, .sleep 15], none)
      else ([.post req], none)

/-- The sections image trial loop. -/
def imageLoop (o : Oracle) (p : String) :
    Nat → List String → Option Bytes × List Event
  | _, [] => (none, [])
  | k, m :: rest =>
      match tryImageModel o k p m with
      | (evs, some bs) => (some bs, evs)
      | (evs, none) =>
          let r := imageLoop o p (k + calls evs) rest
          (r.1, evs ++ r.2)

/-- `VeniceClient.generate_image(prompt)`: first success wins, and exhaustion
raises the fresh generic `Exception("All image models failed")`. -/
def generate_image (o : Oracle) (k : Nat) (prompt : String) :
    Except GenError Bytes × List Event :=
  match imageLoop o prompt k imageModels with
  | (some bs, evs) => (.ok bs, evs)
  | (none, evs) => (.error (.appError "All image models failed"), evs)

/-- Result of inspecting one response key in the sections video client's
`for key in ["video", "url", "videos"]` scan. -/
inductive ScanStep where
  | found (s : String)
  | nextKey
  | raiseErr
deriving DecidableEq, Repr

/-- Inspect one key's value: a string is used directly; a list is replaced by
its first element first (an empty list raises `IndexError`); any other value
falls through to the next key. -/
def scanVal : Option JVal → ScanStep
  | none => .nextKey
  | some (.jstr s) => .found s
  | some (.jlist []) => .raiseErr
  | some (.jlist ((.jstr s) :: _)) => .found s
  | some (.jlist (_ :: _)) => .nextKey
  | some .jother => .nextKey

/-- Scan the keys `video`, `url`, `videos` in order, taking the first that
does not fall through. -/
def firstScan (b : RespBody) : ScanStep :=
  match scanVal b.video with
  | .nextKey =>
      match scanVal b.url with
      | .nextKey => scanVal b.videos
      | r => r
  | r => r

/-- One iteration of the sections video loop: a 429 sleeps 15 seconds and
moves on; a found string starting with `http` is fetched by one GET; any
other found string is base64-decoded; everything else moves on silently. -/
def tryVideoModel (o : Oracle) (k : Nat) (p : String) (d : Nat) (m : String) :
    List Event × Option Bytes :=
  let req := videoPayload p m d
  match o.post k req with
  | .ok body =>
      match firstScan body with
      | .found s =>
          if strStartsWith s "http" then
            match o.get (k + 1) s with
            | .ok c => ([.post req, .get s], some c)
            | .netError => ([.post req, .get s], none)
          else ([.post req], b64decode s)
      | .nextKey => ([.post req], none)
      | .raiseErr => ([.post req], none)
  | .netError => ([.post req], none)
  | .httpError s =>
      if s = 429 then ([.post req, .sleep 15], none)
      else ([.post req], none)

/-- The sections video trial loop. -/
def videoLoop (o : Oracle) (p : String) (d : Nat) :
    Nat → List String → Option Bytes × List Event
  | _, [] => (none, [])
  | k, m :: rest =>
      match tryVideoModel o k p d m with
      | (evs, some bs) => (some bs, evs)
      | (evs, none) =>
          let r := videoLoop o p d (k + calls evs) rest
          (r.1, evs ++ r.2)

/-- `VeniceClient.generate_video(prompt, duration)`: try the video models in
order and on exhaustion fall back to one `generate_image(prompt)` call. -/
def generate_video (o : Oracle) (k : Nat) (prompt : String) (duration : Nat) :
    Except GenError Bytes × List Event :=
  match videoLoop o prompt duration k videoModels with
  | (some bs, evs) => (.ok bs, evs)
  | (none, evs) =>
      let r := generate_image o (k + calls evs) prompt
      (r.1, evs ++ r.2)

end Sections

/-! ## The full script's client: `generate_graeber_video_full.py`,
class `VeniceAPIClient` -/

namespace Full

/-- The image request payload of the full script's client: a single model
(Python default `"fluently-xl"`), 1920x1080, watermark hidden. -/
def imagePayload (prompt model : String) : PostReq :=
  { endpoint := imageEndpoint, model := model, prompt := prompt,
    width := some 1920, height := some 1080, duration := none,
    returnBinary := some false, hideWatermark := some true }

/-- The video request payload of the full script's client (Python default
model `"wan-2.5"`): 1920x1080, no duration. -/
def videoPayload (prompt model : String) : PostReq :=
  { endpoint := videoEndpoint, model := model, prompt := prompt,
    width := some 1920, height := some 1080, duration := none,
    returnBinary := none, hideWatermark := none }

/-- `VeniceAPIClient.generate_image(prompt, model)` of the full script: one
POST, no trial list, no retry; any HTTP or transport error propagates. -/
def generate_image (o : Oracle) (k : Nat) (prompt model : String) :
    Except GenError Bytes × List Event :=
  let req := imagePayload prompt model
  match o.post k req with
  | .ok body =>
      match Graeber.imagesOf body with
      | some s =>
          match b64decode s with
          | some bs => (.ok bs, [.post req])
          | none => (.error .decodeError, [.post req])
      | none => (.error (.appError "No image data returned from Venice API"),
                 [.post req])
  | .httpError s => (.error (.httpStatus s), [.post req])
  | .netError => (.error .netError, [.post req])

/-- `VeniceAPIClient.generate_video(prompt, model)` of the full script.  Only
an HTTP 404 falls back to `generate_image(prompt)`; any other `HTTPError` is
re-raised and non-HTTP errors are not caught at all.  A `video` value that is
not a string makes the function fall off its end and return Python's `None`,
modelled as `.ok none`. -/
def generate_video (o : Oracle) (k : Nat) (prompt model : String) :
    Except GenError (Option Bytes) × List Event :=
  let req := videoPayload prompt model
  match o.post k req with
  | .ok body =>
      match body.video with
      | some (.jstr s) =>
          if strStartsWith s "http" then
            match o.get (k + 1) s with
            | .ok c => (.ok (some c), [.post req, .get s])
            | .netError => (.error .netError, [.post req, .get s])
          else
            match b64decode s with
            | some bs => (.ok (some bs), [.post req])
            | none => (.error .decodeError, [.post req])
      | some _ => (.ok none, [.post req])
      | none =>
          match body.url with
          | some (.jstr s) =>
              match o.get (k + 1) s with
              | .ok c => (.ok (some c), [.post req, .get s])
              | .netError => (.error .netError, [.post req, .get s])
          | some _ => (.error (.appError "invalid url"), [.post req])
          | none => (.error (.appError "No video data returned"), [.post req])
  | .httpError s =>
      if s = 404 then
        let r := generate_image o (k + 1) prompt "fluently-xl"
        (r.1.map some, .post req :: r.2)
      else (.error (.httpStatus s), [.post req])
  | .netError => (.error .netError, [.post req])

end Full

/-! ## The single-image script: `generate_single_image.py` -/

namespace SingleImage

/-- The trial list of `generate_single_image.generate_image`. -/
def models : List String :=
  ["nano-banana-pro", "hidream", "venice-sd35", "qwen-image", "z-image-turbo"]

/-- The request payload (1280x720). -/
def imagePayload (prompt model : String) : PostReq :=
  { endpoint := imageEndpoint, model := model, prompt := prompt,
    width := some 1280, height := some 720, duration := none,
    returnBinary := some false, hideWatermark := none }

/-- One iteration of the single-image trial loop: on success the decoded
bytes are written to `outputFile` by this very function and `True` is
returned; a 429 moves on immediately (no sleep here); every failure moves
on. -/
def tryModel (o : Oracle) (k : Nat) (p outputFile m : String) :
    List Event × Bool :=
  let req := imagePayload p m
  match o.post k req with
  | .ok body =>
      match Graeber.imagesOf body with
      | some s =>
          match b64decode s with
          | some bs => ([.post req, .write outputFile bs], true)
          | none => ([.post req], false)
      | none => ([.post req], false)
  | .httpError _ => ([.post req], false)
  | .netError => ([.post req], false)

/-- The trial loop of `generate_single_image.generate_image`. -/
def loop (o : Oracle) (p outputFile : String) :
    Nat → List String → Bool × List Event
  | _, [] => (false, [])
  | k, m :: rest =>
      match tryModel o k p outputFile m with
      | (evs, true) => (true, evs)
      | (evs, false) =>
          let r := loop o p outputFile (k + calls evs) rest
          (r.1, evs ++ r.2)

/-- `generate_single_image.generate_image(api_key, prompt, output_file)`:
returns whether any model succeeded, writing the file itself on success. -/
def generate_image (o : Oracle) (k : Nat) (prompt outputFile : String) :
    Bool × List Event :=
  loop o prompt outputFile k models

end SingleImage

/-! ## Round-trip of the base64 codec -/

/-- Decoding the alphabet character of a sextet recovers the sextet. -/
theorem charSextet_sextetChar_fin :
    ∀ n : Fin 64, charSextet (sextetChar n.val) = some n.val := by decide

/-- Sextet characters are never the padding character. -/
theorem sextetChar_ne_pad : ∀ n : Fin 64, sextetChar n.val ≠ '=' := by decide

/-- Sextet characters belong to the alphabet. -/
theorem isB64Char_sextetChar : ∀ n : Fin 64, isB64Char (sextetChar n.val) = true := by
  decide

/-- Nat form of `charSextet_sextetChar_fin`. -/
theorem charSextet_sextetChar (n : Nat) (h : n < 64) :
    charSextet (sextetChar n) = some n :=
  charSextet_sextetChar_fin ⟨n, h⟩

/-- Every character emitted by the encoder survives the decoder's filter. -/
theorem mem_b64encodeAux_keep (bs : Bytes) (h : ∀ b ∈ bs, b < 256) :
    ∀ c ∈ b64encodeAux bs, (isB64Char c || c == '=') = true := by
  induction bs using b64encodeAux.induct with
  | case1 => intro c hc; simp [b64encodeAux] at hc
  | case2 a =>
      have ha : a < 256 := h a (by simp)
      intro c hc
      simp only [b64encodeAux, List.mem_cons, List.mem_singleton] at hc
      rcases hc with rfl | rfl | rfl | rfl | hc
      · simp [isB64Char_sextetChar ⟨a / 4, by omega⟩]
      · simp [isB64Char_sextetChar ⟨a % 4 * 16, by omega⟩]
      · simp
      · simp
      · simp at hc
  | case3 a b =>
      have ha : a < 256 := h a (by simp)
      have hb : b < 256 := h b (by simp)
      intro c hc
      simp only [b64encodeAux, List.mem_cons, List.mem_singleton] at hc
      rcases hc with rfl | rfl | rfl | rfl | hc
      · simp [isB64Char_sextetChar ⟨a / 4, by omega⟩]
      · simp [isB64Char_sextetChar ⟨a % 4 * 16 + b / 16, by omega⟩]
      · simp [isB64Char_sextetChar ⟨b % 16 * 4, by omega⟩]
      · simp
      · simp at hc
  | case4 a b c rest ih =>
      have ha : a < 256 := h a (by simp)
      have hb : b < 256 := h b (by simp)
      have hc' : c < 256 := h c (by simp)
      have hrest : ∀ x ∈ rest, x < 256 := fun x hx => h x (by simp [hx])
      intro d hd
      simp only [b64encodeAux, List.mem_cons] at hd
      rcases hd with rfl | rfl | rfl | rfl | hd
      · simp [isB64Char_sextetChar ⟨a / 4, by omega⟩]
      · simp [isB64Char_sextetChar ⟨a % 4 * 16 + b / 16, by omega⟩]
      · simp [isB64Char_sextetChar ⟨b % 16 * 4 + c / 64, by omega⟩]
      · simp [isB64Char_sextetChar ⟨c % 64, by omega⟩]
      · exact ih hrest d hd

/-- Decoding a full four-sextet chunk recovers its three sextet values. -/
theorem quadBytes3_sextets (w x y z : Nat) (hw : w < 64) (hx : x < 64)
    (hy : y < 64) (hz : z < 64) :
    quadBytes3 (sextetChar w) (sextetChar x) (sextetChar y) (sextetChar z)
      = some [w * 4 + x / 16, x % 16 * 16 + y / 4, y % 4 * 64 + z] := by
  simp [quadBytes3, charSextet_sextetChar w hw, charSextet_sextetChar x hx,
        charSextet_sextetChar y hy, charSextet_sextetChar z hz]

/-- The decoder inverts the encoder on every byte list. -/
theorem b64decodeChars_b64encodeAux (bs : Bytes) (h : ∀ b ∈ bs, b < 256) :
    b64decodeChars (b64encodeAux bs) = some bs := by
  induction bs using b64encodeAux.induct with
  | case1 => simp [b64encodeAux, b64decodeChars]
  | case2 a =>
      have ha : a < 256 := h a (by simp)
      have e1 : a / 4 * 4 + a % 4 * 16 / 16 = a := by omega
      simp [b64encodeAux, b64decodeChars, quadBytes1,
            charSextet_sextetChar (a / 4) (by omega),
            charSextet_sextetChar (a % 4 * 16) (by omega)]
      omega
  | case3 a b =>
      have ha : a < 256 := h a (by simp)
      have hb : b < 256 := h b (by simp)
      have hne : sextetChar (b % 16 * 4) ≠ '=' := sextetChar_ne_pad ⟨_, by omega⟩
      have e1 : a / 4 * 4 + (a % 4 * 16 + b / 16) / 16 = a := by omega
      have e2 : (a % 4 * 16 + b / 16) % 16 * 16 + b % 16 * 4 / 4 = b := by omega
      simp [b64encodeAux, b64decodeChars, quadBytes2, hne,
            charSextet_sextetChar (a / 4) (by omega),
            charSextet_sextetChar (a % 4 * 16 + b / 16) (by omega),
            charSextet_sextetChar (b % 16 * 4) (by omega)]
      omega
  | case4 a b c rest ih =>
      have ha : a < 256 := h a (by simp)
      have hb : b < 256 := h b (by simp)
      have hc : c < 256 := h c (by simp)
      have hrest : ∀ x ∈ rest, x < 256 := fun x hx => h x (by simp [hx])
      have hne : sextetChar (c % 64) ≠ '=' := sextetChar_ne_pad ⟨_, by omega⟩
      have e1 : a / 4 * 4 + (a % 4 * 16 + b / 16) / 16 = a := by omega
      have e2 : (a % 4 * 16 + b / 16) % 16 * 16 + (b % 16 * 4 + c / 64) / 4 = b := by
        omega
      have e3 : (b % 16 * 4 + c / 64) % 4 * 64 + c % 64 = c := by omega
      simp only [b64encodeAux, b64decodeChars]
      rw [if_neg (fun hcon => hne hcon.2),
          quadBytes3_sextets _ _ _ _ (by omega) (by omega) (by omega) (by omega),
          ih hrest]
      simp [e1, e2, e3]

/-- Round trip: `b64decode` is a left inverse of `b64encode` on byte lists. -/
theorem b64decode_b64encode (bs : Bytes) (h : ∀ b ∈ bs, b < 256) :
    b64decode (b64encode bs) = some bs := by
  have hkeep := mem_b64encodeAux_keep bs h
  have : (b64encodeAux bs).filter (fun c => isB64Char c || c == '=')
      = b64encodeAux bs := List.filter_eq_self.mpr hkeep
  simpa [b64decode, b64encode, this] using b64decodeChars_b64encodeAux bs h

/-! ## Structural lemmas about traces and the trial loops -/

/-- `postsOf` distributes over trace concatenation. -/
theorem postsOf_append (l1 l2 : List Event) :
    postsOf (l1 ++ l2) = postsOf l1 ++ postsOf l2 := by
  simp [postsOf]

/-- `postedModels` distributes over trace concatenation. -/
theorem postedModels_append (l1 l2 : List Event) :
    postedModels (l1 ++ l2) = postedModels l1 ++ postedModels l2 := by
  simp [postedModels, postsOf]

/-- Each image trial of the main client posts its payload exactly once, or
exactly twice after a rate limit; nothing else is ever posted. -/
theorem Graeber.tryImageModel_postsOf (o : Oracle) (k : Nat) (p m : String) :
    postsOf (Graeber.tryImageModel o k p m).1 = [Graeber.imagePayload p m] ∨
    postsOf (Graeber.tryImageModel o k p m).1
      = [Graeber.imagePayload p m, Graeber.imagePayload p m] := by
  cases h : o.post k (Graeber.imagePayload p m) with
  | ok body => left; simp [Graeber.tryImageModel, h, postsOf]
  | netError => left; simp [Graeber.tryImageModel, h, postsOf]
  | httpError s =>
      by_cases h4 : s = 404
      · left; simp [Graeber.tryImageModel, h, h4, postsOf]
      · by_cases h9 : s = 429
        · right; simp [Graeber.tryImageModel, h, h4, h9, postsOf]
        · left; simp [Graeber.tryImageModel, h, h4, h9, postsOf]

/-- Every POST of the main client's image loop carries the image endpoint,
the caller's prompt, and a model of the trial list. -/
theorem Graeber.imageLoop_posts (o : Oracle) (p : String) :
    ∀ (ms : List String) (k : Nat) (le : Option GenError),
      ∀ r ∈ postsOf (Graeber.imageLoop o p k ms le).2,
        r.endpoint = imageEndpoint ∧ r.prompt = p ∧ r.model ∈ ms := by
  intro ms
  induction ms with
  | nil =>
      intro k le r hr
      cases le <;> simp [Graeber.imageLoop, postsOf] at hr
  | cons m rest ih =>
      intro k le r hr
      have hpost := Graeber.tryImageModel_postsOf o k p m
      cases htm : Graeber.tryImageModel o k p m with
      | mk evs out =>
          rw [htm] at hpost
          cases out with
          | inr bs =>
              simp only [Graeber.imageLoop, htm] at hr
              have : r ∈ postsOf evs := hr
              rcases hpost with hp | hp <;> rw [hp] at this <;>
                simp only [List.mem_cons, List.mem_singleton] at this <;>
                rcases this with rfl | rfl | _ <;>
                simp_all [Graeber.imagePayload]
          | inl e =>
              simp only [Graeber.imageLoop, htm, postsOf_append,
                         List.mem_append] at hr
              rcases hr with hr | hr
              · rcases hpost with hp | hp <;> rw [hp] at hr <;>
                  simp only [List.mem_cons, List.mem_singleton] at hr <;>
                  rcases hr with rfl | rfl | _ <;>
                  simp_all [Graeber.imagePayload]
              · have := ih (k + calls evs) (some e) r hr
                exact ⟨this.1, this.2.1, by simp [this.2.2]⟩

/-- The response-body scan of the main video client issues GETs only, never a
POST. -/
theorem Graeber.videoBodyScan_postsOf (o : Oracle) (k : Nat) (b : RespBody) :
    postsOf (Graeber.videoBodyScan o k b).1 = [] := by
  unfold Graeber.videoBodyScan
  repeat' split
  all_goals simp [postsOf]

/-- Each video trial of the main client posts its payload exactly once. -/
theorem Graeber.tryVideoModel_postsOf (o : Oracle) (k : Nat) (p : String)
    (d : Nat) (me : String × Bool) :
    postsOf (Graeber.tryVideoModel o k p d me).1
      = [Graeber.videoPayload p me.1 d me.2] := by
  cases h : o.post k (Graeber.videoPayload p me.1 d me.2) with
  | ok body =>
      simp [Graeber.tryVideoModel, h, postsOf]
      have := Graeber.videoBodyScan_postsOf o (k + 1) body
      simpa [postsOf] using this
  | netError => simp [Graeber.tryVideoModel, h, postsOf]
  | httpError s =>
      by_cases h4 : s = 404
      · simp [Graeber.tryVideoModel, h, h4, postsOf]
      · by_cases h9 : s = 429
        · simp [Graeber.tryVideoModel, h, h4, h9, postsOf]
        · simp [Graeber.tryVideoModel, h, h4, h9, postsOf]

/-- Every POST of the main client's video loop carries the video endpoint and
the caller's prompt. -/
theorem Graeber.videoLoop_posts (o : Oracle) (p : String) (d : Nat) :
    ∀ (vms : List (String × Bool)) (k : Nat) (le : Option GenError),
      ∀ r ∈ postsOf (Graeber.videoLoop o p d k vms le).2.2,
        r.endpoint = videoEndpoint ∧ r.prompt = p := by
  intro vms
  induction vms with
  | nil => intro k le r hr; simp [Graeber.videoLoop, postsOf] at hr
  | cons me rest ih =>
      intro k le r hr
      have hpost := Graeber.tryVideoModel_postsOf o k p d me
      cases htm : Graeber.tryVideoModel o k p d me with
      | mk evs out =>
          rw [htm] at hpost
          simp only at hpost
          match out with
          | some (.inr bs) =>
              simp only [Graeber.videoLoop, htm] at hr
              rw [hpost] at hr
              simp only [List.mem_singleton] at hr
              subst hr
              exact ⟨rfl, rfl⟩
          | some (.inl e) =>
              simp only [Graeber.videoLoop, htm, postsOf_append,
                         List.mem_append] at hr
              rcases hr with hr | hr
              · rw [hpost] at hr
                simp only [List.mem_singleton] at hr
                subst hr
                exact ⟨rfl, rfl⟩
              · exact ih (k + calls evs) (some e) r hr
          | none =>
              simp only [Graeber.videoLoop, htm, postsOf_append,
                         List.mem_append] at hr
              rcases hr with hr | hr
              · rw [hpost] at hr
                simp only [List.mem_singleton] at hr
                subst hr
                exact ⟨rfl, rfl⟩
              · exact ih (k + calls evs) le r hr

/-! Projection facts for the request payloads, used pervasively below. -/

@[simp] theorem Graeber.imagePayload_endpoint (p m : String) :
    (Graeber.imagePayload p m).endpoint = imageEndpoint := rfl

@[simp] theorem Graeber.imagePayload_model (p m : String) :
    (Graeber.imagePayload p m).model = m := rfl

@[simp] theorem Graeber.imagePayload_prompt (p m : String) :
    (Graeber.imagePayload p m).prompt = p := rfl

@[simp] theorem Graeber.videoPayload_endpoint (p m : String) (d : Nat) (sd : Bool) :
    (Graeber.videoPayload p m d sd).endpoint = videoEndpoint := rfl

@[simp] theorem Graeber.videoPayload_model (p m : String) (d : Nat) (sd : Bool) :
    (Graeber.videoPayload p m d sd).model = m := rfl

@[simp] theorem Graeber.videoPayload_prompt (p m : String) (d : Nat) (sd : Bool) :
    (Graeber.videoPayload p m d sd).prompt = p := rfl

@[simp] theorem Sections.imagePayload_endpoint_eq (p m : String) :
    (Sections.imagePayload p m).endpoint = imageEndpoint := rfl

@[simp] theorem Sections.imagePayload_model_eq (p m : String) :
    (Sections.imagePayload p m).model = m := rfl

@[simp] theorem Sections.imagePayload_prompt_eq (p m : String) :
    (Sections.imagePayload p m).prompt = p := rfl

@[simp] theorem Sections.videoPayload_endpoint_eq (p m : String) (d : Nat) :
    (Sections.videoPayload p m d).endpoint = videoEndpoint := rfl

@[simp] theorem Sections.videoPayload_model_eq (p m : String) (d : Nat) :
    (Sections.videoPayload p m d).model = m := rfl

@[simp] theorem Sections.videoPayload_prompt_eq (p m : String) (d : Nat) :
    (Sections.videoPayload p m d).prompt = p := rfl

/-- Each image trial of the sections client posts its model exactly once. -/
theorem Sections.tryImageModel_models (o : Oracle) (k : Nat)
    (p m : String) :
    postedModels (Sections.tryImageModel o k p m).1 = [m] := by
  cases h : o.post k (Sections.imagePayload p m) with
  | ok body =>
      cases hb : Graeber.imagesOf body <;>
        simp [Sections.tryImageModel, h, hb, postedModels, postsOf]
  | netError =>
      simp [Sections.tryImageModel, h, postedModels, postsOf]
  | httpError s =>
      by_cases h9 : s = 429 <;>
        simp [Sections.tryImageModel, h, h9, postedModels, postsOf]

/-- The sections image loop contacts models in exactly the list order: the
posted models are always an initial segment of the trial list. -/
theorem Sections.imageLoop_take (o : Oracle) (p : String) :
    ∀ (ms : List String) (k : Nat),
      ∃ j, j ≤ ms.length ∧
        postedModels (Sections.imageLoop o p k ms).2 = ms.take j := by
  intro ms
  induction ms with
  | nil => intro k; exact ⟨0, by simp, by simp [Sections.imageLoop, postedModels, postsOf]⟩
  | cons m rest ih =>
      intro k
      have hpost := Sections.tryImageModel_models o k p m
      cases htm : Sections.tryImageModel o k p m with
      | mk evs out =>
          rw [htm] at hpost
          simp only at hpost
          match out with
          | some bs =>
              refine ⟨1, by simp, ?_⟩
              simp [Sections.imageLoop, htm, hpost]
          | none =>
              obtain ⟨j, hj, hjeq⟩ := ih (k + calls evs)
              refine ⟨j + 1, by simp; omega, ?_⟩
              simp only [Sections.imageLoop, htm, postedModels_append,
                         List.take_succ_cons]
              rw [hpost, hjeq]
              rfl

/-- Every POST of the sections image loop carries the image endpoint, the
caller's prompt and a model of the trial list. -/
theorem Sections.imageLoop_posts_endpoint (o : Oracle) (p : String) :
    ∀ (ms : List String) (k : Nat),
      ∀ r ∈ postsOf (Sections.imageLoop o p k ms).2,
        r.endpoint = imageEndpoint ∧ r.prompt = p := by
  intro ms
  induction ms with
  | nil => intro k r hr; simp [Sections.imageLoop, postsOf] at hr
  | cons m rest ih =>
      intro k r hr
      have hone : postsOf (Sections.tryImageModel o k p m).1
          = [Sections.imagePayload p m] := by
        cases h : o.post k (Sections.imagePayload p m) with
        | ok body =>
            cases hb : Graeber.imagesOf body <;>
              simp [Sections.tryImageModel, h, hb, postsOf]
        | netError => simp [Sections.tryImageModel, h, postsOf]
        | httpError s =>
            by_cases h9 : s = 429 <;>
              simp [Sections.tryImageModel, h, h9, postsOf]
      cases htm : Sections.tryImageModel o k p m with
      | mk evs out =>
          rw [htm] at hone
          simp only at hone
          match out with
          | some bs =>
              simp only [Sections.imageLoop, htm] at hr
              rw [hone] at hr
              simp only [List.mem_singleton] at hr
              subst hr
              exact ⟨rfl, rfl⟩
          | none =>
              simp only [Sections.imageLoop, htm, postsOf_append,
                         List.mem_append] at hr
              rcases hr with hr | hr
              · rw [hone] at hr
                simp only [List.mem_singleton] at hr
                subst hr
                exact ⟨rfl, rfl⟩
              · exact ih (k + calls evs) r hr

/-- Each video trial of the sections client posts its payload exactly once. -/
theorem Sections.tryVideoModel_posts (o : Oracle) (k : Nat) (p : String)
    (d : Nat) (m : String) :
    postsOf (Sections.tryVideoModel o k p d m).1
      = [Sections.videoPayload p m d] := by
  cases h : o.post k (Sections.videoPayload p m d) with
  | ok body =>
      cases hs : Sections.firstScan body with
      | found s =>
          by_cases hh : strStartsWith s "http"
          · cases hg : o.get (k + 1) s <;>
              simp [Sections.tryVideoModel, h, hs, hh, hg, postsOf]
          · simp [Sections.tryVideoModel, h, hs, hh, postsOf]
      | nextKey => simp [Sections.tryVideoModel, h, hs, postsOf]
      | raiseErr => simp [Sections.tryVideoModel, h, hs, postsOf]
  | netError => simp [Sections.tryVideoModel, h, postsOf]
  | httpError s =>
      by_cases h9 : s = 429 <;>
        simp [Sections.tryVideoModel, h, h9, postsOf]

/-- Every POST of the sections video loop carries the video endpoint and the
caller's prompt. -/
theorem Sections.videoLoop_posts_endpoint (o : Oracle) (p : String) (d : Nat) :
    ∀ (ms : List String) (k : Nat),
      ∀ r ∈ postsOf (Sections.videoLoop o p d k ms).2,
        r.endpoint = videoEndpoint ∧ r.prompt = p := by
  intro ms
  induction ms with
  | nil => intro k r hr; simp [Sections.videoLoop, postsOf] at hr
  | cons m rest ih =>
      intro k r hr
      have hone := Sections.tryVideoModel_posts o k p d m
      cases htm : Sections.tryVideoModel o k p d m with
      | mk evs out =>
          rw [htm] at hone
          simp only at hone
          match out with
          | some bs =>
              simp only [Sections.videoLoop, htm] at hr
              rw [hone] at hr
              simp only [List.mem_singleton] at hr
              subst hr
              exact ⟨rfl, rfl⟩
          | none =>
              simp only [Sections.videoLoop, htm, postsOf_append,
                         List.mem_append] at hr
              rcases hr with hr | hr
              · rw [hone] at hr
                simp only [List.mem_singleton] at hr
                subst hr
                exact ⟨rfl, rfl⟩
              · exact ih (k + calls evs) r hr

/-! ## Consecutive-run collapsing, to state the contact order of the main
image loop (whose rate-limit retry may post the same model twice in a row) -/

/-- Collapse consecutive equal entries of a list of model names. -/
def dedupRun : List String → List String
  | [] => []
  | [x] => [x]
  | x :: y :: rest => if x = y then dedupRun (y :: rest) else x :: dedupRun (y :: rest)

/-- Whether all adjacent entries of a list differ. -/
def adjDistinct : List String → Bool
  | x :: y :: rest => (x != y) && adjDistinct (y :: rest)
  | _ => true

/-- Collapsing removes an immediate duplicate head. -/
theorem dedupRun_pair (x : String) (l : List String) :
    dedupRun (x :: x :: l) = dedupRun (x :: l) := by simp [dedupRun]

/-- Collapsing keeps a head that differs from its successor. -/
theorem dedupRun_cons_ne (x y : String) (l : List String) (h : x ≠ y) :
    dedupRun (x :: y :: l) = x :: dedupRun (y :: l) := by simp [dedupRun, h]

/-- The models posted by one main-client image trial: once, or twice after a
rate limit. -/
theorem Graeber.tryImageModel_postedModels (o : Oracle) (k : Nat)
    (p m : String) :
    postedModels (Graeber.tryImageModel o k p m).1 = [m] ∨
    postedModels (Graeber.tryImageModel o k p m).1 = [m, m] := by
  rcases Graeber.tryImageModel_postsOf o k p m with hp | hp <;>
    [left; right] <;> simp [postedModels, hp]

/-- The main image loop on a nonempty list always posts the head model
first. -/
theorem Graeber.imageLoop_head (o : Oracle) (p m : String)
    (rest : List String) (k : Nat) (le : Option GenError) :
    ∃ t, postedModels (Graeber.imageLoop o p k (m :: rest) le).2 = m :: t := by
  have hpm := Graeber.tryImageModel_postedModels o k p m
  cases htm : Graeber.tryImageModel o k p m with
  | mk evs out =>
      rw [htm] at hpm
      simp only at hpm
      match out with
      | .inr bs =>
          rcases hpm with hp | hp
          · exact ⟨[], by simp [Graeber.imageLoop, htm, hp]⟩
          · exact ⟨[m], by simp [Graeber.imageLoop, htm, hp]⟩
      | .inl e =>
          rcases hpm with hp | hp
          · exact ⟨postedModels (Graeber.imageLoop o p (k + calls evs) rest (some e)).2,
              by simp [Graeber.imageLoop, htm, postedModels_append, hp]⟩
          · exact ⟨m :: postedModels (Graeber.imageLoop o p (k + calls evs) rest (some e)).2,
              by simp [Graeber.imageLoop, htm, postedModels_append, hp]⟩

/-- One-step unfolding of the main image loop on a successful trial. -/
theorem Graeber.imageLoop_cons_ok {o : Oracle} {p m : String} {k : Nat}
    {le : Option GenError} {evs : List Event} {bs : Bytes}
    {rest : List String}
    (htm : Graeber.tryImageModel o k p m = (evs, .inr bs)) :
    Graeber.imageLoop o p k (m :: rest) le = (.ok bs, evs) := by
  simp [Graeber.imageLoop, htm]

/-- One-step unfolding of the main image loop on a failing trial. -/
theorem Graeber.imageLoop_cons_err {o : Oracle} {p m : String} {k : Nat}
    {le : Option GenError} {evs : List Event} {e : GenError}
    {rest : List String}
    (htm : Graeber.tryImageModel o k p m = (evs, .inl e)) :
    Graeber.imageLoop o p k (m :: rest) le =
      ((Graeber.imageLoop o p (k + calls evs) rest (some e)).1,
       evs ++ (Graeber.imageLoop o p (k + calls evs) rest (some e)).2) := by
  simp [Graeber.imageLoop, htm]

/-- When adjacent models of the trial list differ, the models contacted by
the main image loop — with rate-limit double-posts collapsed — form exactly
an initial segment of the trial list. -/
theorem Graeber.imageLoop_dedup (o : Oracle) (p : String) :
    ∀ (ms : List String) (k : Nat) (le : Option GenError),
      adjDistinct ms = true →
      ∃ j, j ≤ ms.length ∧
        dedupRun (postedModels (Graeber.imageLoop o p k ms le).2) = ms.take j := by
  intro ms
  induction ms with
  | nil =>
      intro k le _
      refine ⟨0, by simp, ?_⟩
      cases le <;> simp [Graeber.imageLoop, postedModels, postsOf, dedupRun]
  | cons m rest ih =>
      intro k le hadj
      have hpm := Graeber.tryImageModel_postedModels o k p m
      cases htm : Graeber.tryImageModel o k p m with
      | mk evs out =>
          rw [htm] at hpm
          simp only at hpm
          match out with
          | .inr bs =>
              refine ⟨1, by simp, ?_⟩
              rw [Graeber.imageLoop_cons_ok htm]
              rcases hpm with hp | hp <;> rw [hp] <;> simp [dedupRun]
          | .inl e =>
              cases rest with
              | nil =>
                  refine ⟨1, by simp, ?_⟩
                  rw [Graeber.imageLoop_cons_err htm]
                  have hnil : postedModels
                      (Graeber.imageLoop o p (k + calls evs) [] (some e)).2 = [] := by
                    simp [Graeber.imageLoop, postedModels, postsOf]
                  simp only [postedModels_append, hnil, List.append_nil]
                  rcases hpm with hp | hp <;> rw [hp] <;> simp [dedupRun]
              | cons m2 rest2 =>
                  have hadj' : adjDistinct (m2 :: rest2) = true := by
                    simp [adjDistinct] at hadj
                    exact hadj.2
                  have hne : m ≠ m2 := by
                    simp [adjDistinct] at hadj
                    exact hadj.1
                  obtain ⟨j, hj, hjeq⟩ := ih (k + calls evs) (some e) hadj'
                  obtain ⟨t, ht⟩ :=
                    Graeber.imageLoop_head o p m2 rest2 (k + calls evs) (some e)
                  refine ⟨j + 1, ?_, ?_⟩
                  · simp only [List.length_cons] at hj ⊢
                    omega
                  · rw [Graeber.imageLoop_cons_err htm]
                    simp only [postedModels_append]
                    rcases hpm with hp | hp
                    · rw [hp, List.singleton_append, ht,
                          dedupRun_cons_ne m m2 t hne, ← ht, hjeq]
                      rfl
                    · rw [hp, List.cons_append, List.singleton_append, ht,
                          dedupRun_pair, dedupRun_cons_ne m m2 t hne, ← ht, hjeq]
                      rfl

/-- One-step unfolding of the main video loop on a successful trial. -/
theorem Graeber.videoLoop_cons_ok {o : Oracle} {p : String} {d k : Nat}
    {le : Option GenError} {evs : List Event} {bs : Bytes}
    {me : String × Bool} {rest : List (String × Bool)}
    (htm : Graeber.tryVideoModel o k p d me = (evs, some (.inr bs))) :
    Graeber.videoLoop o p d k (me :: rest) le = (some bs, le, evs) := by
  simp [Graeber.videoLoop, htm]

/-- One-step unfolding of the main video loop on an error-recording trial. -/
theorem Graeber.videoLoop_cons_err {o : Oracle} {p : String} {d k : Nat}
    {le : Option GenError} {evs : List Event} {e : GenError}
    {me : String × Bool} {rest : List (String × Bool)}
    (htm : Graeber.tryVideoModel o k p d me = (evs, some (.inl e))) :
    Graeber.videoLoop o p d k (me :: rest) le =
      ((Graeber.videoLoop o p d (k + calls evs) rest (some e)).1,
       (Graeber.videoLoop o p d (k + calls evs) rest (some e)).2.1,
       evs ++ (Graeber.videoLoop o p d (k + calls evs) rest (some e)).2.2) := by
  simp [Graeber.videoLoop, htm]

/-- One-step unfolding of the main video loop on a silently falling-through
trial: the recorded error is left unchanged. -/
theorem Graeber.videoLoop_cons_skip {o : Oracle} {p : String} {d k : Nat}
    {le : Option GenError} {evs : List Event}
    {me : String × Bool} {rest : List (String × Bool)}
    (htm : Graeber.tryVideoModel o k p d me = (evs, none)) :
    Graeber.videoLoop o p d k (me :: rest) le =
      ((Graeber.videoLoop o p d (k + calls evs) rest le).1,
       (Graeber.videoLoop o p d (k + calls evs) rest le).2.1,
       evs ++ (Graeber.videoLoop o p d (k + calls evs) rest le).2.2) := by
  simp [Graeber.videoLoop, htm]

/-- One-step unfolding of the sections image loop on a successful trial. -/
theorem Sections.imageLoop_step_ok {o : Oracle} {p m : String} {k : Nat}
    {evs : List Event} {bs : Bytes} {rest : List String}
    (htm : Sections.tryImageModel o k p m = (evs, some bs)) :
    Sections.imageLoop o p k (m :: rest) = (some bs, evs) := by
  simp [Sections.imageLoop, htm]

/-- One-step unfolding of the sections image loop on a failing trial. -/
theorem Sections.imageLoop_cons_fail {o : Oracle} {p m : String} {k : Nat}
    {evs : List Event} {rest : List String}
    (htm : Sections.tryImageModel o k p m = (evs, none)) :
    Sections.imageLoop o p k (m :: rest) =
      ((Sections.imageLoop o p (k + calls evs) rest).1,
       evs ++ (Sections.imageLoop o p (k + calls evs) rest).2) := by
  simp [Sections.imageLoop, htm]

/-- One-step unfolding of the sections video loop on a successful trial. -/
theorem Sections.videoLoop_step_ok {o : Oracle} {p m : String} {d k : Nat}
    {evs : List Event} {bs : Bytes} {rest : List String}
    (htm : Sections.tryVideoModel o k p d m = (evs, some bs)) :
    Sections.videoLoop o p d k (m :: rest) = (some bs, evs) := by
  simp [Sections.videoLoop, htm]

/-- One-step unfolding of the sections video loop on a failing trial. -/
theorem Sections.videoLoop_cons_fail {o : Oracle} {p m : String} {d k : Nat}
    {evs : List Event} {rest : List String}
    (htm : Sections.tryVideoModel o k p d m = (evs, none)) :
    Sections.videoLoop o p d k (m :: rest) =
      ((Sections.videoLoop o p d (k + calls evs) rest).1,
       evs ++ (Sections.videoLoop o p d (k + calls evs) rest).2) := by
  simp [Sections.videoLoop, htm]

/-! ## No trace of any main-client or sections-client call writes a file -/

/-- `writesOf` distributes over trace concatenation. -/
theorem writesOf_append (l1 l2 : List Event) :
    writesOf (l1 ++ l2) = writesOf l1 ++ writesOf l2 := by
  simp [writesOf]

/-- A main-client image trial performs no file write. -/
theorem Graeber.tryImageModel_writesOf (o : Oracle) (k : Nat) (p m : String) :
    writesOf (Graeber.tryImageModel o k p m).1 = [] := by
  cases h : o.post k (Graeber.imagePayload p m) with
  | ok body => simp [Graeber.tryImageModel, h, writesOf]
  | netError => simp [Graeber.tryImageModel, h, writesOf]
  | httpError s =>
      by_cases h4 : s = 404
      · simp [Graeber.tryImageModel, h, h4, writesOf]
      · by_cases h9 : s = 429 <;>
          simp [Graeber.tryImageModel, h, h4, h9, writesOf]

/-- The main-client video body scan performs no file write. -/
theorem Graeber.videoBodyScan_writesOf (o : Oracle) (k : Nat) (b : RespBody) :
    writesOf (Graeber.videoBodyScan o k b).1 = [] := by
  unfold Graeber.videoBodyScan
  repeat' split
  all_goals simp [writesOf]

/-- A main-client video trial performs no file write. -/
theorem Graeber.tryVideoModel_writesOf (o : Oracle) (k : Nat) (p : String)
    (d : Nat) (me : String × Bool) :
    writesOf (Graeber.tryVideoModel o k p d me).1 = [] := by
  cases h : o.post k (Graeber.videoPayload p me.1 d me.2) with
  | ok body =>
      have := Graeber.videoBodyScan_writesOf o (k + 1) body
      simp only [Graeber.tryVideoModel, h]
      simpa [writesOf] using this
  | netError => simp [Graeber.tryVideoModel, h, writesOf]
  | httpError s =>
      by_cases h4 : s = 404
      · simp [Graeber.tryVideoModel, h, h4, writesOf]
      · by_cases h9 : s = 429 <;>
          simp [Graeber.tryVideoModel, h, h4, h9, writesOf]

/-- The main image loop performs no file write. -/
theorem Graeber.imageLoop_writesOf (o : Oracle) (p : String) :
    ∀ (ms : List String) (k : Nat) (le : Option GenError),
      writesOf (Graeber.imageLoop o p k ms le).2 = [] := by
  intro ms
  induction ms with
  | nil => intro k le; cases le <;> simp [Graeber.imageLoop, writesOf]
  | cons m rest ih =>
      intro k le
      have hw := Graeber.tryImageModel_writesOf o k p m
      cases htm : Graeber.tryImageModel o k p m with
      | mk evs out =>
          rw [htm] at hw
          simp only at hw
          match out with
          | .inr bs => rw [Graeber.imageLoop_cons_ok htm]; exact hw
          | .inl e =>
              rw [Graeber.imageLoop_cons_err htm]
              simp [writesOf_append, hw, ih]

/-- The main video loop performs no file write. -/
theorem Graeber.videoLoop_writesOf (o : Oracle) (p : String) (d : Nat) :
    ∀ (vms : List (String × Bool)) (k : Nat) (le : Option GenError),
      writesOf (Graeber.videoLoop o p d k vms le).2.2 = [] := by
  intro vms
  induction vms with
  | nil => intro k le; simp [Graeber.videoLoop, writesOf]
  | cons me rest ih =>
      intro k le
      have hw := Graeber.tryVideoModel_writesOf o k p d me
      cases htm : Graeber.tryVideoModel o k p d me with
      | mk evs out =>
          rw [htm] at hw
          simp only at hw
          match out with
          | some (.inr bs) => rw [Graeber.videoLoop_cons_ok htm]; exact hw
          | some (.inl e) =>
              rw [Graeber.videoLoop_cons_err htm]
              simp [writesOf_append, hw, ih]
          | none =>
              rw [Graeber.videoLoop_cons_skip htm]
              simp [writesOf_append, hw, ih]

/-- A sections image trial performs no file write. -/
theorem Sections.tryImageModel_no_writes (o : Oracle) (k : Nat) (p m : String) :
    writesOf (Sections.tryImageModel o k p m).1 = [] := by
  cases h : o.post k (Sections.imagePayload p m) with
  | ok body =>
      cases hb : Graeber.imagesOf body <;>
        simp [Sections.tryImageModel, h, hb, writesOf]
  | netError => simp [Sections.tryImageModel, h, writesOf]
  | httpError s =>
      by_cases h9 : s = 429 <;>
        simp [Sections.tryImageModel, h, h9, writesOf]

/-- A sections video trial performs no file write. -/
theorem Sections.tryVideoModel_no_writes (o : Oracle) (k : Nat) (p : String)
    (d : Nat) (m : String) :
    writesOf (Sections.tryVideoModel o k p d m).1 = [] := by
  cases h : o.post k (Sections.videoPayload p m d) with
  | ok body =>
      cases hs : Sections.firstScan body with
      | found s =>
          by_cases hh : strStartsWith s "http"
          · cases hg : o.get (k + 1) s <;>
              simp [Sections.tryVideoModel, h, hs, hh, hg, writesOf]
          · simp [Sections.tryVideoModel, h, hs, hh, writesOf]
      | nextKey => simp [Sections.tryVideoModel, h, hs, writesOf]
      | raiseErr => simp [Sections.tryVideoModel, h, hs, writesOf]
  | netError => simp [Sections.tryVideoModel, h, writesOf]
  | httpError s =>
      by_cases h9 : s = 429 <;>
        simp [Sections.tryVideoModel, h, h9, writesOf]

/-- The sections image loop performs no file write. -/
theorem Sections.imageLoop_no_writes (o : Oracle) (p : String) :
    ∀ (ms : List String) (k : Nat),
      writesOf (Sections.imageLoop o p k ms).2 = [] := by
  intro ms
  induction ms with
  | nil => intro k; simp [Sections.imageLoop, writesOf]
  | cons m rest ih =>
      intro k
      have hw := Sections.tryImageModel_no_writes o k p m
      cases htm : Sections.tryImageModel o k p m with
      | mk evs out =>
          rw [htm] at hw
          simp only at hw
          match out with
          | some bs => rw [Sections.imageLoop_step_ok htm]; exact hw
          | none =>
              rw [Sections.imageLoop_cons_fail htm]
              simp [writesOf_append, hw, ih]

/-- The sections video loop performs no file write. -/
theorem Sections.videoLoop_no_writes (o : Oracle) (p : String) (d : Nat) :
    ∀ (ms : List String) (k : Nat),
      writesOf (Sections.videoLoop o p d k ms).2 = [] := by
  intro ms
  induction ms with
  | nil => intro k; simp [Sections.videoLoop, writesOf]
  | cons m rest ih =>
      intro k
      have hw := Sections.tryVideoModel_no_writes o k p d m
      cases htm : Sections.tryVideoModel o k p d m with
      | mk evs out =>
          rw [htm] at hw
          simp only at hw
          match out with
          | some bs => rw [Sections.videoLoop_step_ok htm]; exact hw
          | none =>
              rw [Sections.videoLoop_cons_fail htm]
              simp [writesOf_append, hw, ih]

/-! ## Concrete mocked services used by witnesses and counterexamples -/

/-- A service that answers 404 ("model not found") to every POST. -/
def oracle404 : Oracle := ⟨fun _ _ => .httpError 404, fun _ _ => .netError⟩

/-- A service that answers 429 ("rate limited") to every POST. -/
def oracle429 : Oracle := ⟨fun _ _ => .httpError 429, fun _ _ => .netError⟩

/-- A service that answers 500 to every POST. -/
def oracle500 : Oracle := ⟨fun _ _ => .httpError 500, fun _ _ => .netError⟩

/-- A service whose n-th call fails with status 500 + n, so that every trial
records a distinct error. -/
def oracleSeq : Oracle := ⟨fun n _ => .httpError (500 + n), fun _ _ => .netError⟩

/-- A service that always returns `{images: ["QQ=="]}` (the base64 encoding
of the single byte 65). -/
def oracleImgOK : Oracle :=
  ⟨fun _ _ => .ok ⟨some ["QQ=="], none, none, none⟩, fun _ _ => .netError⟩

/-- A service that returns `{video: "http"}` — which is the base64 encoding
of the bytes [134, 219, 105] — and serves [42] on any GET. -/
def oracleVideoHttp : Oracle :=
  ⟨fun _ _ => .ok ⟨none, some (.jstr "http"), none, none⟩, fun _ _ => .ok [42]⟩

/-- A service that returns `{video: "AP8="}` (the base64 encoding of
[0, 255]). -/
def oracleVideoB64 : Oracle :=
  ⟨fun _ _ => .ok ⟨none, some (.jstr "AP8="), none, none⟩, fun _ _ => .netError⟩

/-- A service that returns the video as a URL and serves [9, 9] on the GET. -/
def oracleVideoUrl : Oracle :=
  ⟨fun _ _ => .ok ⟨none, some (.jstr "http://cdn/v.mp4"), none, none⟩,
   fun _ _ => .ok [9, 9]⟩

/-- A service that answers every video POST with `{video: 7}`-style non-string
content and fails every image POST with 503. -/
def oracleVideoOther : Oracle :=
  ⟨fun _ r => if r.endpoint == videoEndpoint
              then .ok ⟨none, some .jother, none, none⟩
              else .httpError 503,
   fun _ _ => .netError⟩

/-! ## The claims -/

/-- C5: the claim reads "Every image-generation request issued by the client
carries pixel dimensions no larger than the service maximum of 1280×720."
The full script's client (`generate_graeber_video_full.py`, whose
`generate_image` the claim cites) requests 1920×1080, exceeding the cap that
the other scripts document as the service maximum ("Max width per Venice
API").  This theorem evaluates the embedded client at a failing input: the
one POST it issues carries width 1920 and height 1080. -/
theorem C5_full_client_dimensions_exceed_cap :
    (Full.imagePayload "p" "fluently-xl").width = some 1920 ∧
    (Full.imagePayload "p" "fluently-xl").height = some 1080 ∧
    postsOf (Full.generate_image oracle500 0 "p" "fluently-xl").2
      = [Full.imagePayload "p" "fluently-xl"] ∧
    ¬(1920 ≤ 1280 ∧ 1080 ≤ 720) ∧
    (∀ p m : String, (Graeber.imagePayload p m).width = some 1280 ∧
      (Graeber.imagePayload p m).height = some 720) ∧
    (∀ p m : String, (Sections.imagePayload p m).width = some 1280 ∧
      (Sections.imagePayload p m).height = some 720) ∧
    (∀ p m : String, (SingleImage.imagePayload p m).width = some 1280 ∧
      (SingleImage.imagePayload p m).height = some 720) := by
  refine ⟨rfl, rfl, by decide, by decide, ?_, ?_, ?_⟩ <;>
    intro p m <;> exact ⟨rfl, rfl⟩

/-- C9: in the main client's image path the caller-supplied model is appended
as the sixth and last trial entry after the five hardcoded ones; with the
default argument, `nano-banana-pro` sits at both the first and the last
position, so a pass in which every request fails (here: with 404) posts it
twice. -/
theorem C9_user_model_appended_last (m : String) (o : Oracle) (k : Nat)
    (p : String) (hfail : ∀ n r, o.post n r = .httpError 404) :
    Graeber.modelsToTry m
      = ["nano-banana-pro", "hidream", "venice-sd35", "qwen-image",
         "z-image-turbo"] ++ [m] ∧
    (Graeber.modelsToTry "nano-banana-pro").getD 0 "" = "nano-banana-pro" ∧
    (Graeber.modelsToTry "nano-banana-pro").getD 5 "" = "nano-banana-pro" ∧
    ((postedModels (Graeber.generate_image o k p "nano-banana-pro").2).filter
      (fun x => x == "nano-banana-pro")).length = 2 := by
  refine ⟨rfl, rfl, rfl, ?_⟩
  have htm : ∀ (n : Nat) (m' : String),
      Graeber.tryImageModel o n p m'
        = ([.post (Graeber.imagePayload p m')], .inl (.httpStatus 404)) := by
    intro n m'
    simp [Graeber.tryImageModel, hfail]
  simp [Graeber.generate_image, Graeber.modelsToTry, Graeber.imageLoop, htm,
        calls, Event.isCall, postedModels, postsOf]

/-- Witness for `C9_user_model_appended_last` at the all-404 service. -/
theorem C9_user_model_appended_last_witness :
    ((postedModels (Graeber.generate_image oracle404 0 "p" "nano-banana-pro").2).filter
      (fun x => x == "nano-banana-pro")).length = 2 :=
  (C9_user_model_appended_last "nano-banana-pro" oracle404 0 "p"
    (fun _ _ => rfl)).2.2.2

/-- C2 (amended): the claim reads that on BOTH the image and the video path a
429 pauses 15 seconds and retries the same identifier exactly once.  That is
true only of the main client's image path; its video path pauses 15 seconds
and then advances to the next identifier with no retry.  Amended statement:
(1) an image trial that is rate limited emits exactly POST, 15-second sleep,
POST of the same payload, and ends regardless of the retry's outcome; (2) no
image trial ever posts more than twice; (3) a rate-limited video trial emits
exactly POST then a 15-second sleep — no second POST — and records the 429
before advancing. -/
theorem C2_rate_limit_retry_amended :
    (∀ (o : Oracle) (k : Nat) (p m : String),
      o.post k (Graeber.imagePayload p m) = .httpError 429 →
      (Graeber.tryImageModel o k p m).1
        = [.post (Graeber.imagePayload p m), .sleep 15,
           .post (Graeber.imagePayload p m)]) ∧
    (∀ (o : Oracle) (k : Nat) (p m : String),
      (postsOf (Graeber.tryImageModel o k p m).1).length ≤ 2) ∧
    (∀ (o : Oracle) (k : Nat) (p : String) (d : Nat) (me : String × Bool),
      o.post k (Graeber.videoPayload p me.1 d me.2) = .httpError 429 →
      Graeber.tryVideoModel o k p d me
        = ([.post (Graeber.videoPayload p me.1 d me.2), .sleep 15],
           some (.inl (.httpStatus 429)))) := by
  refine ⟨?_, ?_, ?_⟩
  · intro o k p m h
    simp [Graeber.tryImageModel, h]
  · intro o k p m
    rcases Graeber.tryImageModel_postsOf o k p m with hp | hp <;> simp [hp]
  · intro o k p d me h
    simp [Graeber.tryVideoModel, h]

/-- Witness for `C2_rate_limit_retry_amended` at the all-429 service. -/
theorem C2_rate_limit_retry_amended_witness :
    (Graeber.tryImageModel oracle429 0 "p" "nano-banana-pro").1
      = [.post (Graeber.imagePayload "p" "nano-banana-pro"), .sleep 15,
         .post (Graeber.imagePayload "p" "nano-banana-pro")] ∧
    Graeber.tryVideoModel oracle429 0 "p" 5 ("sora-2-pro-text-to-video", true)
      = ([.post (Graeber.videoPayload "p" "sora-2-pro-text-to-video" 5 true),
          .sleep 15], some (.inl (.httpStatus 429))) :=
  ⟨C2_rate_limit_retry_amended.1 oracle429 0 "p" "nano-banana-pro" rfl,
   C2_rate_limit_retry_amended.2.2 oracle429 0 "p" 5
     ("sora-2-pro-text-to-video", true) rfl⟩

/-- Counterexample to C2 as stated: under a service that rate-limits every
request, the main client's video pass contacts its first video identifier
exactly once, not the twice that "retry the same identifier exactly once"
requires. -/
theorem C2_rate_limit_retry_counterexample :
    ((postsTo videoEndpoint (Graeber.generate_video oracle429 0 "p" 5).2).filter
      (fun r => r.model == "sora-2-pro-text-to-video")).length = 1 ∧
    ¬((postsTo videoEndpoint (Graeber.generate_video oracle429 0 "p" 5).2).filter
      (fun r => r.model == "sora-2-pro-text-to-video")).length = 2 := by
  decide

/-- A sections `generate_image` call performs no file write. -/
theorem Sections.generate_image_writesOf (o : Oracle) (k : Nat) (p : String) :
    writesOf (Sections.generate_image o k p).2 = [] := by
  have h := Sections.imageLoop_no_writes o p Sections.imageModels k
  cases hres : Sections.imageLoop o p k Sections.imageModels with
  | mk r1 r2 =>
      rw [hres] at h
      match r1 with
      | some bs => simpa [Sections.generate_image, hres] using h
      | none => simpa [Sections.generate_image, hres] using h

/-- C8 (amended): the claim reads that every generate call of the generation
client performs network I/O only and never writes the filesystem.  That holds
for the `VeniceAPIClient` and `VeniceClient` generate methods — their traces
contain no write event, persisting being the caller's job — but not for the
standalone `generate_single_image.generate_image`, which writes the decoded
bytes to the output file itself. -/
theorem C8_network_only_amended :
    (∀ (o : Oracle) (k : Nat) (p m : String),
      writesOf (Graeber.generate_image o k p m).2 = []) ∧
    (∀ (o : Oracle) (k : Nat) (p : String) (d : Nat),
      writesOf (Graeber.generate_video o k p d).2 = []) ∧
    (∀ (o : Oracle) (k : Nat) (p : String),
      writesOf (Sections.generate_image o k p).2 = []) ∧
    (∀ (o : Oracle) (k : Nat) (p : String) (d : Nat),
      writesOf (Sections.generate_video o k p d).2 = []) := by
  refine ⟨?_, ?_, fun o k p => Sections.generate_image_writesOf o k p, ?_⟩
  · intro o k p m
    exact Graeber.imageLoop_writesOf o p (Graeber.modelsToTry m) k none
  · intro o k p d
    have hv := Graeber.videoLoop_writesOf o p d Graeber.videoModelsToTry k none
    have hi := Graeber.imageLoop_writesOf o p (Graeber.modelsToTry "nano-banana-pro")
    cases hres : Graeber.videoLoop o p d k Graeber.videoModelsToTry none with
    | mk r1 r23 =>
        rw [hres] at hv
        match r1 with
        | some bs => simp [Graeber.generate_video, hres]; exact hv
        | none =>
            simp [Graeber.generate_video, hres, writesOf_append]
            exact ⟨hv, hi _ _⟩
  · intro o k p d
    have hv := Sections.videoLoop_no_writes o p d Sections.videoModels k
    cases hres : Sections.videoLoop o p d k Sections.videoModels with
    | mk r1 r2 =>
        rw [hres] at hv
        match r1 with
        | some bs => simpa [Sections.generate_video, hres] using hv
        | none =>
            have : Sections.generate_video o k p d
                = ((Sections.generate_image o (k + calls r2) p).1,
                   r2 ++ (Sections.generate_image o (k + calls r2) p).2) := by
              simp [Sections.generate_video, hres]
            rw [this]
            simp only [writesOf_append, hv]
            simpa using Sections.generate_image_writesOf o (k + calls r2) p

/-- Counterexample to C8 as stated: the single-image script's generate call,
given a service that returns an image payload, writes the output file inside
the generate call itself. -/
theorem C8_network_only_counterexample :
    writesOf (SingleImage.generate_image oracleImgOK 0 "p" "test_output.png").2
      = [("test_output.png", [65])] ∧
    writesOf (SingleImage.generate_image oracleImgOK 0 "p" "test_output.png").2
      ≠ [] := by decide

/-- C3: the clients contact backend identifiers in exactly the configured
priority order and return on the first success without contacting anyone
else.  (1) The models posted by the sections image client always form an
initial segment of its configured list; (2) likewise for the main image
client with its default trial list, once the double-post of a rate-limit
retry is collapsed; (3, 4) if the very first request succeeds with a
decodable payload, the whole call returns it after that single POST. -/
theorem C3_priority_order :
    (∀ (o : Oracle) (k : Nat) (p : String),
      ∃ j, j ≤ Sections.imageModels.length ∧
        postedModels (Sections.generate_image o k p).2
          = Sections.imageModels.take j) ∧
    (∀ (o : Oracle) (k : Nat) (p : String),
      ∃ j, j ≤ (Graeber.modelsToTry "nano-banana-pro").length ∧
        dedupRun (postedModels (Graeber.generate_image o k p "nano-banana-pro").2)
          = (Graeber.modelsToTry "nano-banana-pro").take j) ∧
    (∀ (o : Oracle) (k : Nat) (p : String) (body : RespBody) (s : String)
        (bs : Bytes),
      o.post k (Graeber.imagePayload p "nano-banana-pro") = .ok body →
      Graeber.imagesOf body = some s →
      b64decode s = some bs →
      Graeber.generate_image o k p "nano-banana-pro"
        = (.ok bs, [.post (Graeber.imagePayload p "nano-banana-pro")])) ∧
    (∀ (o : Oracle) (k : Nat) (p : String) (body : RespBody) (s : String)
        (bs : Bytes),
      o.post k (Sections.imagePayload p "nano-banana-pro") = .ok body →
      Graeber.imagesOf body = some s →
      b64decode s = some bs →
      Sections.generate_image o k p
        = (.ok bs, [.post (Sections.imagePayload p "nano-banana-pro")])) := by
  refine ⟨?_, ?_, ?_, ?_⟩
  · intro o k p
    obtain ⟨j, hj, hjeq⟩ := Sections.imageLoop_take o p Sections.imageModels k
    refine ⟨j, hj, ?_⟩
    cases hres : Sections.imageLoop o p k Sections.imageModels with
    | mk r1 r2 =>
        rw [hres] at hjeq
        match r1 with
        | some bs => simpa [Sections.generate_image, hres] using hjeq
        | none => simpa [Sections.generate_image, hres] using hjeq
  · intro o k p
    exact Graeber.imageLoop_dedup o p (Graeber.modelsToTry "nano-banana-pro") k
      none (by decide)
  · intro o k p body s bs hpost himg hdec
    have htm : Graeber.tryImageModel o k p "nano-banana-pro"
        = ([.post (Graeber.imagePayload p "nano-banana-pro")], .inr bs) := by
      simp [Graeber.tryImageModel, hpost, Graeber.imageOkOutcome, himg, hdec]
    exact Graeber.imageLoop_cons_ok htm
  · intro o k p body s bs hpost himg hdec
    have htm : Sections.tryImageModel o k p "nano-banana-pro"
        = ([.post (Sections.imagePayload p "nano-banana-pro")], some bs) := by
      simp [Sections.tryImageModel, hpost, himg, hdec]
    have hloop : Sections.imageLoop o p k Sections.imageModels
        = (some bs, [.post (Sections.imagePayload p "nano-banana-pro")]) :=
      Sections.imageLoop_step_ok htm
    simp [Sections.generate_image, hloop]

/-- Witness for `C3_priority_order`: at a service whose first answer is
`{images: ["QQ=="]}`, both clients return the decoded byte 65 after exactly
one POST of their first configured model. -/
theorem C3_priority_order_witness :
    Graeber.generate_image oracleImgOK 0 "p" "nano-banana-pro"
      = (.ok [65], [.post (Graeber.imagePayload "p" "nano-banana-pro")]) ∧
    Sections.generate_image oracleImgOK 0 "p"
      = (.ok [65], [.post (Sections.imagePayload "p" "nano-banana-pro")]) :=
  ⟨C3_priority_order.2.2.1 oracleImgOK 0 "p" ⟨some ["QQ=="], none, none, none⟩
      "QQ==" [65] rfl rfl (by decide),
   C3_priority_order.2.2.2 oracleImgOK 0 "p" ⟨some ["QQ=="], none, none, none⟩
      "QQ==" [65] rfl rfl (by decide)⟩

/-- C6 (amended): the claim reads that whenever the service responds with the
base64 encoding of a byte string B inline (images array or video field), the
client returns exactly B.  For the images array this holds unconditionally;
for the video field it holds only when the encoding does not begin with
"http" — an encoding that does (such as that of [134, 219, 105], which
encodes to "http") is treated as a URL and fetched instead of decoded. -/
theorem C6_base64_roundtrip_amended :
    (∀ (o : Oracle) (k : Nat) (p : String) (bs : Bytes) (body : RespBody)
        (tl : List String),
      (∀ b ∈ bs, b < 256) →
      o.post k (Graeber.imagePayload p "nano-banana-pro") = .ok body →
      body.images = some (b64encode bs :: tl) →
      Graeber.generate_image o k p "nano-banana-pro"
        = (.ok bs, [.post (Graeber.imagePayload p "nano-banana-pro")])) ∧
    (∀ (o : Oracle) (k : Nat) (p : String) (d : Nat) (bs : Bytes)
        (body : RespBody),
      (∀ b ∈ bs, b < 256) →
      strStartsWith (b64encode bs) "http" = false →
      o.post k (Graeber.videoPayload p "sora-2-pro-text-to-video" d true)
        = .ok body →
      body.video = some (.jstr (b64encode bs)) →
      Graeber.generate_video o k p d
        = (.ok bs,
           [.post (Graeber.videoPayload p "sora-2-pro-text-to-video" d true)])) := by
  constructor
  · intro o k p bs body tl hb hpost himg
    have himg' : Graeber.imagesOf body = some (b64encode bs) := by
      simp [Graeber.imagesOf, himg]
    have htm : Graeber.tryImageModel o k p "nano-banana-pro"
        = ([.post (Graeber.imagePayload p "nano-banana-pro")], .inr bs) := by
      simp [Graeber.tryImageModel, hpost, Graeber.imageOkOutcome, himg',
            b64decode_b64encode bs hb]
    exact Graeber.imageLoop_cons_ok htm
  · intro o k p d bs body hb hss hpost hvid
    have htm : Graeber.tryVideoModel o k p d ("sora-2-pro-text-to-video", true)
        = ([.post (Graeber.videoPayload p "sora-2-pro-text-to-video" d true)],
           some (.inr bs)) := by
      simp [Graeber.tryVideoModel, hpost, Graeber.videoBodyScan, hvid, hss,
            b64decode_b64encode bs hb]
    have hloop : Graeber.videoLoop o p d k Graeber.videoModelsToTry none
        = (some bs,
           none,
           [.post (Graeber.videoPayload p "sora-2-pro-text-to-video" d true)]) :=
      Graeber.videoLoop_cons_ok htm
    simp [Graeber.generate_video, hloop]

/-- Witness for `C6_base64_roundtrip_amended`: a service answering
`{images: ["QQ=="]}` yields the byte 65, and one answering `{video: "AP8="}`
yields the bytes [0, 255] — each equal to what the mock encoded. -/
theorem C6_base64_roundtrip_amended_witness :
    Graeber.generate_image oracleImgOK 0 "p" "nano-banana-pro"
      = (.ok [65], [.post (Graeber.imagePayload "p" "nano-banana-pro")]) ∧
    Graeber.generate_video oracleVideoB64 0 "p" 5
      = (.ok [0, 255],
         [.post (Graeber.videoPayload "p" "sora-2-pro-text-to-video" 5 true)]) :=
  ⟨C6_base64_roundtrip_amended.1 oracleImgOK 0 "p" [65]
      ⟨some ["QQ=="], none, none, none⟩ [] (by decide) rfl rfl,
   C6_base64_roundtrip_amended.2 oracleVideoB64 0 "p" 5 [0, 255]
      ⟨none, some (.jstr "AP8="), none, none⟩ (by decide) (by decide) rfl rfl⟩

/-- Counterexample to C6 as stated: the bytes [134, 219, 105] encode to the
base64 text "http"; a service that returns that inline in the video field
makes the client fetch "http" as a URL and return the GET body [42] instead
of the encoded bytes. -/
theorem C6_base64_roundtrip_counterexample :
    b64encode [134, 219, 105] = "http" ∧
    Graeber.generate_video oracleVideoHttp 0 "p" 5
      = (.ok [42],
         [.post (Graeber.videoPayload "p" "sora-2-pro-text-to-video" 5 true),
          .get "http"]) ∧
    (Graeber.generate_video oracleVideoHttp 0 "p" 5).1
      ≠ .ok ([134, 219, 105] : Bytes) := by decide

/-- C7: when a generation response embeds the media as a string starting with
"http" (in the video, url, or videos field), the client issues exactly one
further GET to that string and returns the fetched body verbatim: the whole
trace is one POST followed by one GET, and the result is exactly the GET's
content.  Clauses: main client video / url / videos fields, and the sections
client. -/
theorem C7_url_fetch :
    (∀ (o : Oracle) (k : Nat) (p : String) (d : Nat) (u : String) (c : Bytes)
        (body : RespBody),
      o.post k (Graeber.videoPayload p "sora-2-pro-text-to-video" d true)
        = .ok body →
      body.video = some (.jstr u) →
      strStartsWith u "http" = true →
      o.get (k + 1) u = .ok c →
      Graeber.generate_video o k p d
        = (.ok c,
           [.post (Graeber.videoPayload p "sora-2-pro-text-to-video" d true),
            .get u])) ∧
    (∀ (o : Oracle) (k : Nat) (p : String) (d : Nat) (u : String) (c : Bytes)
        (body : RespBody),
      o.post k (Graeber.videoPayload p "sora-2-pro-text-to-video" d true)
        = .ok body →
      body.video = none →
      body.url = some (.jstr u) →
      strStartsWith u "http" = true →
      o.get (k + 1) u = .ok c →
      Graeber.generate_video o k p d
        = (.ok c,
           [.post (Graeber.videoPayload p "sora-2-pro-text-to-video" d true),
            .get u])) ∧
    (∀ (o : Oracle) (k : Nat) (p : String) (d : Nat) (u : String) (c : Bytes)
        (body : RespBody) (vs : List JVal),
      o.post k (Graeber.videoPayload p "sora-2-pro-text-to-video" d true)
        = .ok body →
      body.video = none →
      body.url = none →
      body.videos = some (.jlist (.jstr u :: vs)) →
      strStartsWith u "http" = true →
      o.get (k + 1) u = .ok c →
      Graeber.generate_video o k p d
        = (.ok c,
           [.post (Graeber.videoPayload p "sora-2-pro-text-to-video" d true),
            .get u])) ∧
    (∀ (o : Oracle) (k : Nat) (p : String) (d : Nat) (u : String) (c : Bytes)
        (body : RespBody),
      o.post k (Sections.videoPayload p "sora-2-pro-text-to-video" d)
        = .ok body →
      body.video = some (.jstr u) →
      strStartsWith u "http" = true →
      o.get (k + 1) u = .ok c →
      Sections.generate_video o k p d
        = (.ok c,
           [.post (Sections.videoPayload p "sora-2-pro-text-to-video" d),
            .get u])) := by
  refine ⟨?_, ?_, ?_, ?_⟩
  · intro o k p d u c body hpost hvid hss hget
    have htm : Graeber.tryVideoModel o k p d ("sora-2-pro-text-to-video", true)
        = ([.post (Graeber.videoPayload p "sora-2-pro-text-to-video" d true),
            .get u], some (.inr c)) := by
      simp [Graeber.tryVideoModel, hpost, Graeber.videoBodyScan, hvid, hss, hget]
    have hloop : Graeber.videoLoop o p d k Graeber.videoModelsToTry none
        = (some c, none,
           [.post (Graeber.videoPayload p "sora-2-pro-text-to-video" d true),
            .get u]) :=
      Graeber.videoLoop_cons_ok htm
    simp [Graeber.generate_video, hloop]
  · intro o k p d u c body hpost hvid hurl hss hget
    have htm : Graeber.tryVideoModel o k p d ("sora-2-pro-text-to-video", true)
        = ([.post (Graeber.videoPayload p "sora-2-pro-text-to-video" d true),
            .get u], some (.inr c)) := by
      simp [Graeber.tryVideoModel, hpost, Graeber.videoBodyScan, hvid, hurl,
            hget]
    have hloop : Graeber.videoLoop o p d k Graeber.videoModelsToTry none
        = (some c, none,
           [.post (Graeber.videoPayload p "sora-2-pro-text-to-video" d true),
            .get u]) :=
      Graeber.videoLoop_cons_ok htm
    simp [Graeber.generate_video, hloop]
  · intro o k p d u c body vs hpost hvid hurl hvids hss hget
    have htm : Graeber.tryVideoModel o k p d ("sora-2-pro-text-to-video", true)
        = ([.post (Graeber.videoPayload p "sora-2-pro-text-to-video" d true),
            .get u], some (.inr c)) := by
      simp [Graeber.tryVideoModel, hpost, Graeber.videoBodyScan, hvid, hurl,
            hvids, hss, hget]
    have hloop : Graeber.videoLoop o p d k Graeber.videoModelsToTry none
        = (some c, none,
           [.post (Graeber.videoPayload p "sora-2-pro-text-to-video" d true),
            .get u]) :=
      Graeber.videoLoop_cons_ok htm
    simp [Graeber.generate_video, hloop]
  · intro o k p d u c body hpost hvid hss hget
    have htm : Sections.tryVideoModel o k p d "sora-2-pro-text-to-video"
        = ([.post (Sections.videoPayload p "sora-2-pro-text-to-video" d),
            .get u], some c) := by
      simp [Sections.tryVideoModel, hpost, Sections.firstScan, Sections.scanVal,
            hvid, hss, hget]
    have hloop : Sections.videoLoop o p d k Sections.videoModels
        = (some c,
           [.post (Sections.videoPayload p "sora-2-pro-text-to-video" d),
            .get u]) :=
      Sections.videoLoop_step_ok htm
    simp [Sections.generate_video, hloop]

/-- Witness for `C7_url_fetch` at a service that returns
`{video: "http://cdn/v.mp4"}` and serves [9, 9] on the GET. -/
theorem C7_url_fetch_witness :
    Graeber.generate_video oracleVideoUrl 0 "p" 5
      = (.ok [9, 9],
         [.post (Graeber.videoPayload "p" "sora-2-pro-text-to-video" 5 true),
          .get "http://cdn/v.mp4"]) ∧
    Sections.generate_video oracleVideoUrl 0 "p" 5
      = (.ok [9, 9],
         [.post (Sections.videoPayload "p" "sora-2-pro-text-to-video" 5),
          .get "http://cdn/v.mp4"]) :=
  ⟨C7_url_fetch.1 oracleVideoUrl 0 "p" 5 "http://cdn/v.mp4" [9, 9]
      ⟨none, some (.jstr "http://cdn/v.mp4"), none, none⟩ rfl rfl (by decide) rfl,
   C7_url_fetch.2.2.2 oracleVideoUrl 0 "p" 5 "http://cdn/v.mp4" [9, 9]
      ⟨none, some (.jstr "http://cdn/v.mp4"), none, none⟩ rfl rfl (by decide) rfl⟩

/-- C10: a 2xx video response whose `video` key holds a non-string (and no
url or videos key) neither returns nor raises: the trial ends silently with
no recorded error, and a whole pass of such responses reaches the image
fallback with the recorded error still `none` — the trace being five bare
POSTs with no sleep or GET. -/
theorem C10_silent_video_fallthrough :
    (∀ (o : Oracle) (k : Nat) (p : String) (d : Nat) (me : String × Bool),
      o.post k (Graeber.videoPayload p me.1 d me.2)
        = .ok ⟨none, some .jother, none, none⟩ →
      Graeber.tryVideoModel o k p d me
        = ([.post (Graeber.videoPayload p me.1 d me.2)], none)) ∧
    (∀ (o : Oracle) (k : Nat) (p : String) (d : Nat),
      (∀ (n : Nat) (r : PostReq), r.endpoint = videoEndpoint →
        o.post n r = .ok ⟨none, some .jother, none, none⟩) →
      (Graeber.videoLoop o p d k Graeber.videoModelsToTry none).1 = none ∧
      (Graeber.videoLoop o p d k Graeber.videoModelsToTry none).2.1 = none ∧
      (Graeber.videoLoop o p d k Graeber.videoModelsToTry none).2.2
        = [.post (Graeber.videoPayload p "sora-2-pro-text-to-video" d true),
           .post (Graeber.videoPayload p "veo3.1-full-text-to-video" d true),
           .post (Graeber.videoPayload p "kling-2.6-pro-text-to-video" d true),
           .post (Graeber.videoPayload p "wan-2.6-text-to-video" d true),
           .post (Graeber.videoPayload p "ltx-2-full-text-to-video" d true)] ∧
      Graeber.generate_video o k p d
        = ((Graeber.generate_image o (k + 5) p "nano-banana-pro").1,
           (Graeber.videoLoop o p d k Graeber.videoModelsToTry none).2.2
             ++ (Graeber.generate_image o (k + 5) p "nano-banana-pro").2)) := by
  constructor
  · intro o k p d me h
    simp [Graeber.tryVideoModel, h, Graeber.videoBodyScan]
  · intro o k p d h
    have htm : ∀ (n : Nat) (m' : String) (sd : Bool),
        Graeber.tryVideoModel o n p d (m', sd)
          = ([.post (Graeber.videoPayload p m' d sd)], none) := by
      intro n m' sd
      have hp := h n (Graeber.videoPayload p m' d sd) rfl
      simp [Graeber.tryVideoModel, hp, Graeber.videoBodyScan]
    refine ⟨?_, ?_, ?_, ?_⟩ <;>
      simp [Graeber.generate_video, Graeber.videoLoop, Graeber.videoModelsToTry,
            htm, calls, Event.isCall]

/-- Witness for `C10_silent_video_fallthrough` at a service answering every
video POST with `{video: <non-string>}`: no error is ever recorded and the
call degrades to the image path. -/
theorem C10_silent_video_fallthrough_witness :
    (Graeber.videoLoop oracleVideoOther "p" 3 0 Graeber.videoModelsToTry none).1
      = none ∧
    (Graeber.videoLoop oracleVideoOther "p" 3 0 Graeber.videoModelsToTry none).2.1
      = none ∧
    Graeber.generate_video oracleVideoOther 0 "p" 3
      = ((Graeber.generate_image oracleVideoOther 5 "p" "nano-banana-pro").1,
         (Graeber.videoLoop oracleVideoOther "p" 3 0 Graeber.videoModelsToTry none).2.2
           ++ (Graeber.generate_image oracleVideoOther 5 "p" "nano-banana-pro").2) := by
  have happ := C10_silent_video_fallthrough.2 oracleVideoOther 0 "p" 3
    (fun n r hr => by simp [oracleVideoOther, hr])
  exact ⟨happ.1, happ.2.1, happ.2.2.2⟩

/-- C1 (amended): the claim reads that whenever every video identifier fails,
the client issues exactly one fallback call through the image path with the
same prompt, and fails only if that also fails.  That is exactly what the
main and sections clients do: when the video loop returns no success, the
call's result and the remainder of its trace are those of one
`generate_image` call on the same prompt (so every image-endpoint POST of
the whole call comes from that one fallback and carries the prompt, and an
error of the fallback is the call's error).  The full script's client,
however, falls back only when its single video request fails with HTTP 404;
any other failure propagates with no image request at all (see the
counterexample). -/
theorem C1_video_fallback_amended :
    (∀ (o : Oracle) (k : Nat) (p : String) (d : Nat),
      (Graeber.videoLoop o p d k Graeber.videoModelsToTry none).1 = none →
      Graeber.generate_video o k p d
        = ((Graeber.generate_image o
              (k + calls (Graeber.videoLoop o p d k Graeber.videoModelsToTry none).2.2)
              p "nano-banana-pro").1,
           (Graeber.videoLoop o p d k Graeber.videoModelsToTry none).2.2
             ++ (Graeber.generate_image o
                  (k + calls (Graeber.videoLoop o p d k Graeber.videoModelsToTry none).2.2)
                  p "nano-banana-pro").2) ∧
      (∀ r ∈ postsOf (Graeber.videoLoop o p d k Graeber.videoModelsToTry none).2.2,
        r.endpoint = videoEndpoint ∧ r.prompt = p) ∧
      (∀ (k' : Nat),
        ∀ r ∈ postsOf (Graeber.generate_image o k' p "nano-banana-pro").2,
          r.endpoint = imageEndpoint ∧ r.prompt = p)) ∧
    (∀ (o : Oracle) (k : Nat) (p : String) (d : Nat),
      (Sections.videoLoop o p d k Sections.videoModels).1 = none →
      Sections.generate_video o k p d
        = ((Sections.generate_image o
              (k + calls (Sections.videoLoop o p d k Sections.videoModels).2) p).1,
           (Sections.videoLoop o p d k Sections.videoModels).2
             ++ (Sections.generate_image o
                  (k + calls (Sections.videoLoop o p d k Sections.videoModels).2) p).2) ∧
      (∀ r ∈ postsOf (Sections.videoLoop o p d k Sections.videoModels).2,
        r.endpoint = videoEndpoint ∧ r.prompt = p) ∧
      (∀ (k' : Nat), ∀ r ∈ postsOf (Sections.generate_image o k' p).2,
        r.endpoint = imageEndpoint ∧ r.prompt = p)) ∧
    (∀ (o : Oracle) (k : Nat) (p m : String),
      o.post k (Full.videoPayload p m) = .httpError 404 →
      Full.generate_video o k p m
        = ((Full.generate_image o (k + 1) p "fluently-xl").1.map some,
           .post (Full.videoPayload p m)
             :: (Full.generate_image o (k + 1) p "fluently-xl").2)) := by
  refine ⟨?_, ?_, ?_⟩
  · intro o k p d hv
    refine ⟨?_, ?_, ?_⟩
    · cases hres : Graeber.videoLoop o p d k Graeber.videoModelsToTry none with
      | mk r1 r23 =>
          rw [hres] at hv
          simp only at hv
          subst hv
          simp [Graeber.generate_video, hres]
    · intro r hr
      exact Graeber.videoLoop_posts o p d Graeber.videoModelsToTry k none r hr
    · intro k' r hr
      have := Graeber.imageLoop_posts o p
        (Graeber.modelsToTry "nano-banana-pro") k' none r hr
      exact ⟨this.1, this.2.1⟩
  · intro o k p d hv
    refine ⟨?_, ?_, ?_⟩
    · cases hres : Sections.videoLoop o p d k Sections.videoModels with
      | mk r1 r2 =>
          rw [hres] at hv
          simp only at hv
          subst hv
          simp [Sections.generate_video, hres]
    · intro r hr
      exact Sections.videoLoop_posts_endpoint o p d Sections.videoModels k r hr
    · intro k' r hr
      have htr : r ∈ postsOf (Sections.imageLoop o p k' Sections.imageModels).2 := by
        cases hres : Sections.imageLoop o p k' Sections.imageModels with
        | mk r1 r2 =>
            match r1 with
            | some bs => simpa [Sections.generate_image, hres] using hr
            | none => simpa [Sections.generate_image, hres] using hr
      exact Sections.imageLoop_posts_endpoint o p Sections.imageModels k' r htr
  · intro o k p m h
    simp [Full.generate_video, h]

/-- Witness for `C1_video_fallback_amended`: with a service failing every
POST with 500, the main client's video call degrades to the image path, and
with a 404-answering service the full client's video call falls back to its
image call. -/
theorem C1_video_fallback_amended_witness :
    Graeber.generate_video oracle500 0 "p" 5
      = ((Graeber.generate_image oracle500
            (0 + calls (Graeber.videoLoop oracle500 "p" 5 0 Graeber.videoModelsToTry none).2.2)
            "p" "nano-banana-pro").1,
         (Graeber.videoLoop oracle500 "p" 5 0 Graeber.videoModelsToTry none).2.2
           ++ (Graeber.generate_image oracle500
                (0 + calls (Graeber.videoLoop oracle500 "p" 5 0 Graeber.videoModelsToTry none).2.2)
                "p" "nano-banana-pro").2) ∧
    Full.generate_video oracle404 0 "p" "wan-2.5"
      = ((Full.generate_image oracle404 1 "p" "fluently-xl").1.map some,
         .post (Full.videoPayload "p" "wan-2.5")
           :: (Full.generate_image oracle404 1 "p" "fluently-xl").2) :=
  ⟨(C1_video_fallback_amended.1 oracle500 0 "p" 5 (by decide)).1,
   C1_video_fallback_amended.2.2 oracle404 0 "p" "wan-2.5" rfl⟩

/-- Counterexample to C1 as stated: at a service failing with 500, the full
script's client raises the 500 directly; no image-endpoint request is ever
issued, though the claim requires exactly one fallback call through the
image path on total video failure. -/
theorem C1_video_fallback_counterexample :
    (Full.generate_video oracle500 0 "p" "wan-2.5").1
      = .error (.httpStatus 500) ∧
    postsTo imageEndpoint (Full.generate_video oracle500 0 "p" "wan-2.5").2
      = [] ∧
    ¬(postsTo imageEndpoint (Full.generate_video oracle500 0 "p" "wan-2.5").2).length
      = 1 := by decide

/-- C4 (amended): the claim reads that on exhaustion of the image path the
last encountered error is surfaced, not a fresh generic one.  The main
client does surface the last trial's error: at a service whose n-th call
fails with status st n, the surfaced error is that of the sixth and last
trial, st (k+5).  The sections client, however, always raises the fresh
generic `Exception("All image models failed")` (see the counterexample). -/
theorem C4_last_error_surfaced_amended :
    (∀ (o : Oracle) (k : Nat) (p m : String) (st : Nat → Nat),
      (∀ n r, o.post n r = .httpError (st n)) →
      (∀ n, st n ≠ 404) →
      (∀ n, st n ≠ 429) →
      (Graeber.generate_image o k p m).1
        = .error (.httpStatus (st (k + 5)))) ∧
    (∀ (o : Oracle) (k : Nat) (p : String) (st : Nat → Nat),
      (∀ n r, o.post n r = .httpError (st n)) →
      (∀ n, st n ≠ 429) →
      (Sections.generate_image o k p).1
        = .error (.appError "All image models failed")) := by
  constructor
  · intro o k p m st h h404 h429
    have htm : ∀ (n : Nat) (m' : String),
        Graeber.tryImageModel o n p m'
          = ([.post (Graeber.imagePayload p m')],
             .inl (.httpStatus (st n))) := by
      intro n m'
      simp [Graeber.tryImageModel, h, h404 n, h429 n]
    simp [Graeber.generate_image, Graeber.modelsToTry, Graeber.imageLoop, htm,
          calls, Event.isCall]
  · intro o k p st h h429
    have htm : ∀ (n : Nat) (m' : String),
        Sections.tryImageModel o n p m'
          = ([.post (Sections.imagePayload p m')], none) := by
      intro n m'
      simp [Sections.tryImageModel, h, h429 n]
    simp [Sections.generate_image, Sections.imageModels, Sections.imageLoop,
          htm, calls, Event.isCall]

/-- Witness for `C4_last_error_surfaced_amended` at the service whose n-th
call fails with status 500 + n: the main client surfaces 505, the error of
its sixth and last trial. -/
theorem C4_last_error_surfaced_witness :
    (Graeber.generate_image oracleSeq 0 "p" "user-model").1
      = .error (.httpStatus 505) ∧
    (Sections.generate_image oracleSeq 0 "p").1
      = .error (.appError "All image models failed") :=
  ⟨C4_last_error_surfaced_amended.1 oracleSeq 0 "p" "user-model"
      (fun n => 500 + n) (fun _ _ => rfl)
      (fun n => (by omega : 500 + n ≠ 404)) (fun n => (by omega : 500 + n ≠ 429)),
   C4_last_error_surfaced_amended.2 oracleSeq 0 "p" (fun n => 500 + n)
      (fun _ _ => rfl) (fun n => (by omega : 500 + n ≠ 429))⟩

/-- Counterexample to C4 as stated: at the service whose n-th call fails
with status 500 + n, the last error the sections client encounters is the
503 of its fourth and last trial, yet it surfaces the fresh generic
"All image models failed" instead. -/
theorem C4_last_error_surfaced_counterexample :
    (Sections.generate_image oracleSeq 0 "p").1
      = .error (.appError "All image models failed") ∧
    (Sections.generate_image oracleSeq 0 "p").1
      ≠ (.error (.httpStatus 503) : Except GenError Bytes) := by decide
